import Mathlib

/-!
# The fake object tracker of `pkg/fakeclient/client.go`

A shallow embedding of `FakeObjectTracker`, its `watcher`s and its
`fakingOptions`, followed by the properties of the specification that are
settled against it.

Conventions of the embedding

* Go methods that mutate their receiver become functions that return the new
  receiver next to the Go result.
* The Go `error` result is an `Error`; a call that can end in a Go panic
  returns an `Outcome`, which has a third case for the panic.
* A channel is the list of the values sent on it, oldest first.  Sending on a
  closed channel panics, as in Go.  Goroutine scheduling, mutexes and the
  blocking of an unbuffered send are not part of the embedding: `dispatch`
  and `Start` are given for the one schedule in which every goroutine has
  finished before the next one is started.
* A `runtime.Object` can be nil, and a method of the delegate can panic.
* Library code the file calls (`k8s.io/apimachinery`, `k8s.io/client-go`) is
  either taken as a parameter (`guess`, `getItemsPtr`, the delegate tracker)
  or written out from its documented behaviour (`watch.FakeWatcher`,
  `SimpleWatchReactor.Handles`).
-/

namespace fakeclient

/-! ## Values shared with the libraries -/

/-- Go error values met by the tracker: `errors.New(text)`, `fmt.Errorf`,
and the two API status errors of the delegate store. -/
inductive Error where
  | New (text : String)
  | Errorf (text : String)
  | NotFound (resource : String) (name : String)
  | AlreadyExists (resource : String) (name : String)
deriving DecidableEq, Repr

/-- The ways a call can end: a normal return without error, a normal return
with a Go error, or a panic. -/
inductive Outcome (α : Type) where
  | ok (a : α)
  | err (e : Error)
  | panic (e : Error)
deriving DecidableEq, Repr

/-- The outcome is a panic. -/
def Outcome.isPanic {α : Type} : Outcome α → Bool
  | .panic _ => true
  | _ => false

/-- The value of `schema.GroupVersionResource`. -/
structure GroupVersionResource where
  Group : String
  Version : String
  Resource : String
deriving DecidableEq, Repr

/-- The value of `schema.GroupVersionKind`. -/
structure GroupVersionKind where
  Group : String
  Version : String
  Kind : String
deriving DecidableEq, Repr

/-- What `meta.TypeAccessor` reads from an object. -/
structure TypeMeta where
  APIVersion : String
  Kind : String
deriving DecidableEq, Repr

/-- What `meta.Accessor` reads from an object.  `Labels` is the Go map
`map[string]string`, written as its list of entries. -/
structure ObjectMeta where
  Name : String
  Namespace : String
  ResourceVersion : String
  Labels : List (String × String)
deriving DecidableEq, Repr

/-- A `runtime.Object`: the nil interface value, or an object with what
`meta.TypeAccessor` and `meta.Accessor` read from it (`none` when the
accessor fails on the object). -/
inductive Object where
  | nil
  | mk (typeMeta : Option TypeMeta) (objectMeta : Option ObjectMeta)
deriving DecidableEq, Repr

/-- What `meta.TypeAccessor` reads from the object; nothing from nil. -/
def Object.typeMeta : Object → Option TypeMeta
  | .nil => none
  | .mk t _ => t

/-- What `meta.Accessor` reads from the object; nothing from nil. -/
def Object.objectMeta : Object → Option ObjectMeta
  | .nil => none
  | .mk _ o => o

/-- The list object returned by `ObjectTracker.List`. -/
structure ObjectList where
  Items : List Object
deriving DecidableEq, Repr

/-- The result of `meta.TypeAccessor(obj)`. -/
def TypeAccessor (obj : Object) : Except Error TypeMeta :=
  match obj.typeMeta with
  | some t => .ok t
  | none => .error (.Errorf "object does not implement the Object interfaces")

/-- The result of `meta.Accessor(obj)`. -/
def Accessor (obj : Object) : Except Error ObjectMeta :=
  match obj.objectMeta with
  | some o => .ok o
  | none => .error (.Errorf "object does not implement the Object interfaces")

/-- The plural resource guessed from an API version and a kind: the first
result of `meta.UnsafeGuessKindToResource(schema.FromAPIVersionAndKind(v, k))`,
taken as a parameter of the embedding. -/
abbrev Guess := String → String → GroupVersionResource

/-- A `fields.Selector` or `labels.Selector`, seen through its `Matches`
method on a `fields.Set` or `labels.Set` (a Go map, as its list of entries). -/
structure Selector where
  Matches : List (String × String) → Bool

namespace watch

/-- The values of `watch.EventType`. -/
inductive EventType where
  | Added
  | Modified
  | Deleted
  | Error
deriving DecidableEq, Repr

/-- The value of `watch.Event`; `Typ` is the Go field `Type`. -/
structure Event where
  Typ : EventType
  Object : Object
deriving DecidableEq, Repr

/-- The value of `watch.FakeWatcher`: `result` is the channel, as the events
sent on it so far, and `Stopped` says that the channel is closed. -/
structure FakeWatcher where
  result : List Event
  Stopped : Bool
deriving DecidableEq, Repr

/-- The watcher made by `watch.NewFake()`. -/
def NewFake : FakeWatcher :=
  { result := [], Stopped := false }

/-- The method `FakeWatcher.Stop`: closes the channel unless it is closed. -/
def FakeWatcher.Stop (f : FakeWatcher) : FakeWatcher :=
  if !f.Stopped then { f with Stopped := true } else f

/-- The method `FakeWatcher.IsStopped`. -/
def FakeWatcher.IsStopped (f : FakeWatcher) : Bool :=
  f.Stopped

/-- The method `FakeWatcher.Action`: `f.result <- Event{action, obj}`.  The
result is `none` when the send panics because the channel is closed. -/
def FakeWatcher.Action (f : FakeWatcher) (action : EventType) (obj : Object) :
    Option FakeWatcher :=
  if f.Stopped then none
  else some { f with result := f.result ++ [{ Typ := action, Object := obj }] }

/-- The method `FakeWatcher.Add`: sends an `Added` event. -/
def FakeWatcher.Add (f : FakeWatcher) (obj : Object) : Option FakeWatcher :=
  f.Action .Added obj

/-- The method `FakeWatcher.Modify`: sends a `Modified` event. -/
def FakeWatcher.Modify (f : FakeWatcher) (obj : Object) : Option FakeWatcher :=
  f.Action .Modified obj

/-- The method `FakeWatcher.Delete`: sends a `Deleted` event. -/
def FakeWatcher.Delete (f : FakeWatcher) (obj : Object) : Option FakeWatcher :=
  f.Action .Deleted obj

end watch

/-- The panic value of a send on a closed channel. -/
def closedChannel : Error :=
  .New "send on closed channel"

/-- The panic value of a method call on a nil interface value. -/
def nilDereference : Error :=
  .New "invalid memory address or nil pointer dereference"

namespace k8stesting

/-- The value of `k8stesting.WatchRestrictions`; a nil selector is `none`. -/
structure WatchRestrictions where
  Labels : Option Selector
  Fields : Option Selector
  ResourceVersion : String

/-- A `k8stesting.WatchAction`, seen through `GetResource`, `GetNamespace`
and `GetWatchRestrictions`. -/
structure WatchAction where
  Resource : GroupVersionResource
  Namespace : String
  WatchRestrictions : WatchRestrictions

/-- A `k8stesting.Action` as the type switch of `watchReactionfunc` sees it:
a watch action, or an action of another type with its verb. -/
inductive Action where
  | watch (a : WatchAction)
  | other (verb : String) (resource : GroupVersionResource)

/-- The value of `k8stesting.SimpleWatchReactor`. -/
structure SimpleWatchReactor where
  Resource : String
deriving DecidableEq, Repr

/-- The method `SimpleWatchReactor.Handles`: the reactor covers the action
when its resource is `*` or the resource of the action. -/
def SimpleWatchReactor.Handles (r : SimpleWatchReactor) (action : WatchAction) : Bool :=
  let resourceCovers := r.Resource == "*" || r.Resource == action.Resource.Resource
  if !resourceCovers then false else true

/-- The interface `k8stesting.ObjectTracker`, as functions on the state `σ`
behind the implementation.  Every method returns the state it leaves, so a
method that is not called is one that leaves no trace in `σ`; a method can
return normally, with or without error, or panic.  `ω` is the type of the
`watch.Interface` values the implementation hands out. -/
structure ObjectTracker (σ ω : Type) where
  Add : σ → Object → Outcome Unit × σ
  Get : σ → GroupVersionResource → String → String → Outcome Object × σ
  Create : σ → GroupVersionResource → Object → String → Outcome Unit × σ
  Update : σ → GroupVersionResource → Object → String → Outcome Unit × σ
  List : σ → GroupVersionResource → GroupVersionKind → String → Outcome ObjectList × σ
  Delete : σ → GroupVersionResource → String → String → Outcome Unit × σ
  Watch : σ → GroupVersionResource → String → Outcome ω × σ

end k8stesting

/-! ## `fakingOptions` -/

/-- The struct `Actions`: the actions whose response can be faked. -/
structure Actions where
  Create : String
  Get : String
  Delete : String
  Update : String
deriving DecidableEq, Repr

/-- The struct `ResourceActions`. -/
structure ResourceActions where
  Node : Actions
deriving DecidableEq, Repr

/-- The struct `fakingOptions`; `delay` is a `time.Duration`. -/
structure fakingOptions where
  fakingEnabled : Bool
  errorMessage : String
  delay : Int
  failAt : ResourceActions
deriving DecidableEq, Repr

/-- The zero value of `fakingOptions`, the one a new tracker has. -/
def fakingOptions.zero : fakingOptions :=
  { fakingEnabled := false, errorMessage := "", delay := 0,
    failAt := { Node := { Create := "", Get := "", Delete := "", Update := "" } } }

/-- The method `SetDelay` (its error result is always nil). -/
def fakingOptions.SetDelay (o : fakingOptions) (delay : Int) : fakingOptions :=
  { o with fakingEnabled := true, delay := delay }

/-- The method `SetError` (its error result is always nil). -/
def fakingOptions.SetError (o : fakingOptions) (message : String) : fakingOptions :=
  { o with fakingEnabled := true, errorMessage := message }

/-- The method `SetFakeResourceActions` (its error result is always nil). -/
def fakingOptions.SetFakeResourceActions (o : fakingOptions)
    (resourceActions : ResourceActions) : fakingOptions :=
  { o with fakingEnabled := true, failAt := resourceActions }

/-- The method `ClearOptions` (its error result is always nil); the argument
`message` is not read. -/
def fakingOptions.ClearOptions (o : fakingOptions) (_message : String) : fakingOptions :=
  { o with fakingEnabled := false, errorMessage := "", delay := 0 }

/-- The time `time.Sleep(d)` takes: nothing for a negative or zero duration. -/
def sleepTime (d : Int) : Nat :=
  d.toNat

/-- The method `RunFakeInvocations`: the time slept and the error returned. -/
def fakingOptions.RunFakeInvocations (o : fakingOptions) : Nat × Option Error :=
  let slept := if o.delay != 0 then sleepTime o.delay else 0
  if o.errorMessage != "" then (slept, some (.New o.errorMessage))
  else (slept, none)

/-! ## `watcher` -/

/-- The struct `watcher`: the embedded `*watch.FakeWatcher` (never nil, it is
made by `watch.NewFake()`) and the watch action that opened the watch. -/
structure watcher where
  FakeWatcher : watch.FakeWatcher
  action : k8stesting.WatchAction

/-- The method `watcher.Stop`. -/
def watcher.Stop (w : watcher) : watcher :=
  { w with FakeWatcher := w.FakeWatcher.Stop }

/-- The method `watcher.handles`. -/
def watcher.handles (guess : Guess) (w : watcher) (event : watch.Event) : Bool :=
  if w.FakeWatcher.IsStopped then false
  else
    match TypeAccessor event.Object with
    | .error _ => false
    | .ok t =>
      let gvr := guess t.APIVersion t.Kind
      if !(k8stesting.SimpleWatchReactor.mk gvr.Resource).Handles w.action then false
      else
        match Accessor event.Object with
        | .error _ => false
        | .ok o =>
          let info := w.action.WatchRestrictions
          let rv := info.ResourceVersion
          let fs := info.Fields
          let ls := info.Labels
          if rv != "" && o.ResourceVersion != rv then false
          else if (match fs with
              | some sel => !sel.Matches
                  [("metadata.name", o.Name), ("metadata.namespace", o.Namespace)]
              | none => false) then false
          else if (match ls with
              | some sel => !sel.Matches o.Labels
              | none => false) then false
          else true

/-- The method `watcher.dispatch`: forwards the event on the channel of the
watcher when `handles` accepts it. -/
def watcher.dispatch (guess : Guess) (w : watcher) (event : watch.Event) :
    Outcome Unit × watcher :=
  if !w.handles guess event then (.ok (), w)
  else
    match w.FakeWatcher.Action event.Typ event.Object with
    | none => (.panic closedChannel, w)
    | some f => (.ok (), { w with FakeWatcher := f })

/-- The event is about the resource the watcher watches: the type and the
metadata of its object can be read and the resource guessed from the API
version and kind of the object is handled for the watch action. -/
def watcher.watches (guess : Guess) (w : watcher) (event : watch.Event) : Bool :=
  match event.Object.typeMeta, event.Object.objectMeta with
  | some tm, some _ =>
    (k8stesting.SimpleWatchReactor.mk (guess tm.APIVersion tm.Kind).Resource).Handles w.action
  | _, _ => false

/-- The loop that ends `dispatchInitialObjects`: one `Added` event per item. -/
def watcher.dispatchItems (guess : Guess) (w : watcher) : List Object → Outcome Unit × watcher
  | [] => (.ok (), w)
  | o :: items =>
    match w.dispatch guess { Typ := .Added, Object := o } with
    | (.ok _, w1) => w1.dispatchItems guess items
    | (r, w1) => (r, w1)

/-! ## `FakeObjectTracker` -/

/-- The struct `FakeObjectTracker`.  `FakeWatcher = none` is the nil pointer of
a tracker without watch support; `objects` is the state behind `delegatee`;
`slept` adds up the time spent in `time.Sleep`. -/
structure FakeObjectTracker (σ ω : Type) where
  FakeWatcher : Option watch.FakeWatcher
  delegatee : k8stesting.ObjectTracker σ ω
  objects : σ
  watchers : List watcher
  slept : Nat
  fakingOptions : fakingOptions

variable {σ ω : Type}

/-- The block that opens every operation of the tracker,
`if t.fakingEnabled { err := t.RunFakeInvocations(); if err != nil { return err } }`:
the error to return, if any, and the tracker after the sleep. -/
def FakeObjectTracker.runFakes (t : FakeObjectTracker σ ω) :
    Option Error × FakeObjectTracker σ ω :=
  if t.fakingOptions.fakingEnabled then
    match t.fakingOptions.RunFakeInvocations with
    | (d, err) => (err, { t with slept := t.slept + d })
  else (none, t)

/-- The method `FakeObjectTracker.Add`. -/
def FakeObjectTracker.Add (t : FakeObjectTracker σ ω) (obj : Object) :
    Outcome Unit × FakeObjectTracker σ ω :=
  match t.runFakes with
  | (some err, t) => (.err err, t)
  | (none, t) =>
    match t.delegatee.Add t.objects obj with
    | (.panic e, s) => (.panic e, { t with objects := s })
    | (.err err, s) => (.err err, { t with objects := s })
    | (.ok _, s) => (.ok (), { t with objects := s })

/-- The method `FakeObjectTracker.Get`. -/
def FakeObjectTracker.Get (t : FakeObjectTracker σ ω) (gvr : GroupVersionResource)
    (ns name : String) : Outcome Object × FakeObjectTracker σ ω :=
  match t.runFakes with
  | (some err, t) => (.err err, t)
  | (none, t) =>
    match t.delegatee.Get t.objects gvr ns name with
    | (.panic e, s) => (.panic e, { t with objects := s })
    | (.err err, s) => (.err err, { t with objects := s })
    | (.ok obj, s) => (.ok obj, { t with objects := s })

/-- The method `FakeObjectTracker.Create`. -/
def FakeObjectTracker.Create (t : FakeObjectTracker σ ω) (gvr : GroupVersionResource)
    (obj : Object) (ns : String) : Outcome Unit × FakeObjectTracker σ ω :=
  match t.runFakes with
  | (some err, t) => (.err err, t)
  | (none, t) =>
    match t.delegatee.Create t.objects gvr obj ns with
    | (.panic e, s) => (.panic e, { t with objects := s })
    | (.err err, s) => (.err err, { t with objects := s })
    | (.ok _, s) =>
      match t.FakeWatcher with
      | none =>
        (.err (.New "Error sending event on a tracker with no watch support"),
          { t with objects := s })
      | some fw =>
        if fw.IsStopped then
          (.err (.New "Error sending event on a stopped tracker"), { t with objects := s })
        else
          match fw.Add obj with
          | none => (.panic closedChannel, { t with objects := s })
          | some fw1 => (.ok (), { t with objects := s, FakeWatcher := some fw1 })

/-- The method `FakeObjectTracker.Update`. -/
def FakeObjectTracker.Update (t : FakeObjectTracker σ ω) (gvr : GroupVersionResource)
    (obj : Object) (ns : String) : Outcome Unit × FakeObjectTracker σ ω :=
  match t.runFakes with
  | (some err, t) => (.err err, t)
  | (none, t) =>
    if t.fakingOptions.fakingEnabled && gvr.Resource == "nodes"
        && t.fakingOptions.failAt.Node.Update != "" then
      (.err (.New t.fakingOptions.failAt.Node.Update), t)
    else
      match t.delegatee.Update t.objects gvr obj ns with
      | (.panic e, s) => (.panic e, { t with objects := s })
      | (.err err, s) => (.err err, { t with objects := s })
      | (.ok _, s) =>
        match t.FakeWatcher with
        | none =>
          (.err (.New "Error sending event on a tracker with no watch support"),
            { t with objects := s })
        | some fw =>
          if fw.IsStopped then
            (.err (.New "Error sending event on a stopped tracker"), { t with objects := s })
          else
            match fw.Modify obj with
            | none => (.panic closedChannel, { t with objects := s })
            | some fw1 => (.ok (), { t with objects := s, FakeWatcher := some fw1 })

/-- The method `FakeObjectTracker.Stop`: panics without watch support;
otherwise closes the channel of the tracker, stops every registered watcher
and forgets them.  The value returned is the list of the watchers as the loop
leaves them. -/
def FakeObjectTracker.Stop (t : FakeObjectTracker σ ω) :
    Outcome (List watcher) × FakeObjectTracker σ ω :=
  match t.FakeWatcher with
  | none => (.panic (.New "Tracker has no watch support"), t)
  | some fw =>
    (.ok (t.watchers.map watcher.Stop), { t with FakeWatcher := some fw.Stop, watchers := [] })

/-- The method `FakeObjectTracker.dispatch`, in the schedule in which every
goroutine `go w.dispatch(event)` it starts has finished when it returns: the
tracker with each watcher as the event leaves it. -/
def FakeObjectTracker.dispatch (guess : Guess) (t : FakeObjectTracker σ ω)
    (event : watch.Event) : FakeObjectTracker σ ω :=
  { t with watchers := t.watchers.map (fun w => (w.dispatch guess event).2) }

/-- The method `FakeObjectTracker.Start` for the events that the loop
`for event := range t.ResultChan()` reads before the channel is closed, in the
schedule in which the goroutines of an event have finished before the next
event is read: the error returned and the tracker at the end. -/
def FakeObjectTracker.Start (guess : Guess) (t : FakeObjectTracker σ ω)
    (events : List watch.Event) : Option Error × FakeObjectTracker σ ω :=
  match t.FakeWatcher with
  | none => (some (.New "Tracker has no watch support"), t)
  | some _ => (none, events.foldl (fun t1 event => t1.dispatch guess event) t)

/-- The method `FakeObjectTracker.List`. -/
def FakeObjectTracker.List (t : FakeObjectTracker σ ω) (gvr : GroupVersionResource)
    (gvk : GroupVersionKind) (ns : String) : Outcome ObjectList × FakeObjectTracker σ ω :=
  match t.runFakes with
  | (some err, t) => (.err err, t)
  | (none, t) =>
    match t.delegatee.List t.objects gvr gvk ns with
    | (.panic e, s) => (.panic e, { t with objects := s })
    | (.err err, s) => (.err err, { t with objects := s })
    | (.ok l, s) => (.ok l, { t with objects := s })

/-- The method `FakeObjectTracker.Delete`: the delegate is asked for the
object, then to delete it; the error of the deletion is looked at first.  A
panic of `Get` ends the call before `Delete` is reached. -/
def FakeObjectTracker.Delete (t : FakeObjectTracker σ ω) (gvr : GroupVersionResource)
    (ns name : String) : Outcome Unit × FakeObjectTracker σ ω :=
  match t.runFakes with
  | (some err, t) => (.err err, t)
  | (none, t) =>
    match t.delegatee.Get t.objects gvr ns name with
    | (.panic e, s1) => (.panic e, { t with objects := s1 })
    | (got, s1) =>
      match t.delegatee.Delete s1 gvr ns name with
      | (.panic e, s) => (.panic e, { t with objects := s })
      | (.err err, s) => (.err err, { t with objects := s })
      | (.ok _, s) =>
        match got with
        | .panic e => (.panic e, { t with objects := s })
        | .err errGet => (.err errGet, { t with objects := s })
        | .ok obj =>
          match t.FakeWatcher with
          | none =>
            (.err (.New "Error sending event on a tracker with no watch support"),
              { t with objects := s })
          | some fw =>
            if fw.IsStopped then
              (.err (.New "Error sending event on a stopped tracker"), { t with objects := s })
            else
              match fw.Delete obj with
              | none => (.panic closedChannel, { t with objects := s })
              | some fw1 => (.ok (), { t with objects := s, FakeWatcher := some fw1 })

/-- The method `FakeObjectTracker.Watch`. -/
def FakeObjectTracker.Watch (t : FakeObjectTracker σ ω) (gvr : GroupVersionResource)
    (name : String) : Outcome ω × FakeObjectTracker σ ω :=
  match t.runFakes with
  | (some err, t) => (.err err, t)
  | (none, t) =>
    match t.delegatee.Watch t.objects gvr name with
    | (.panic e, s) => (.panic e, { t with objects := s })
    | (.err err, s) => (.err err, { t with objects := s })
    | (.ok w, s) => (.ok w, { t with objects := s })

/-- The method `watchReactionfunc`: the results `(handled, watcher, error)`
and the tracker with the new watcher registered.  The goroutine it starts,
`w.dispatchInitialObjects(a, t)`, is `watcher.dispatchInitialObjects` below. -/
def FakeObjectTracker.watchReactionfunc (t : FakeObjectTracker σ ω)
    (action : k8stesting.Action) :
    (Bool × Option watcher × Option Error) × FakeObjectTracker σ ω :=
  match t.FakeWatcher with
  | none => ((false, none, some (.New "Cannot watch on a tracker with no watch support")), t)
  | some _ =>
    match action with
    | .watch a =>
      let w : watcher := { FakeWatcher := watch.NewFake, action := a }
      ((true, some w, none), { t with watchers := t.watchers ++ [w] })
    | .other verb _ => ((false, none, some (.Errorf ("Expected WatchAction but got " ++ verb))), t)

/-- The result of `meta.GetItemsPtr(listObj)`, taken as a parameter: an error,
or the pointer to the slice of the items of the list, seen as the items. -/
abbrev GetItemsPtr := ObjectList → Except Error (List Object)

/-- The method `watcher.dispatchInitialObjects`, run to its end on its own.
The value of `meta.GetItemsPtr` is a pointer to a slice, never a
`[]runtime.Object`, so the type assertion `itemsPtr.([]runtime.Object)`
panics on every list that reaches it and the loop after it
(`watcher.dispatchItems`) is not run. -/
def watcher.dispatchInitialObjects (getItemsPtr : GetItemsPtr) (w : watcher)
    (action : k8stesting.WatchAction) (t : FakeObjectTracker σ ω) :
    Outcome Unit × watcher × FakeObjectTracker σ ω :=
  match t.List action.Resource
      { Group := action.Resource.Group, Version := action.Resource.Version,
        Kind := action.Resource.Resource } action.Namespace with
  | (.err e, t1) => (.err e, w, t1)
  | (.panic e, t1) => (.panic e, w, t1)
  | (.ok listObj, t1) =>
    match getItemsPtr listObj with
    | .error e => (.err e, w, t1)
    | .ok _ => (.panic (.Errorf "interface conversion"), w, t1)

/-! ## Constructors and the group of trackers -/

/-- The loop `for _, obj := range objects` of the two constructors: an error
of `Add` is turned into a panic. -/
def addObjects (o : FakeObjectTracker σ ω) : List Object → Outcome Unit × FakeObjectTracker σ ω
  | [] => (.ok (), o)
  | obj :: objects =>
    match o.Add obj with
    | (.ok _, o1) => addObjects o1 objects
    | (.err e, o1) => (.panic e, o1)
    | (.panic e, o1) => (.panic e, o1)

/-- The function `NewMachineClientSet`, for the tracker it returns.
`newObjectTracker` and `s0` are the result of `k8stesting.NewObjectTracker`;
the clientset, whose reactors call the tracker, is not part of the value. -/
def NewMachineClientSet (newObjectTracker : k8stesting.ObjectTracker σ ω) (s0 : σ)
    (objects : List Object) : Outcome (FakeObjectTracker σ ω) :=
  let o : FakeObjectTracker σ ω :=
    { FakeWatcher := some watch.NewFake, delegatee := newObjectTracker, objects := s0,
      watchers := [], slept := 0, fakingOptions := fakingOptions.zero }
  match addObjects o objects with
  | (.ok _, o1) => .ok o1
  | (.err e, _) => .err e
  | (.panic e, _) => .panic e

/-- The function `NewCoreClientSet`, for the tracker it returns; it differs
from `NewMachineClientSet` in the scheme and the clientset type only. -/
def NewCoreClientSet (newObjectTracker : k8stesting.ObjectTracker σ ω) (s0 : σ)
    (objects : List Object) : Outcome (FakeObjectTracker σ ω) :=
  let o : FakeObjectTracker σ ω :=
    { FakeWatcher := some watch.NewFake, delegatee := newObjectTracker, objects := s0,
      watchers := [], slept := 0, fakingOptions := fakingOptions.zero }
  match addObjects o objects with
  | (.ok _, o1) => .ok o1
  | (.err e, _) => .err e
  | (.panic e, _) => .panic e

/-- The struct `FakeObjectTrackers`; its fields are pointers to trackers, and
`none` is the nil pointer. -/
structure FakeObjectTrackers (σ ω : Type) where
  ControlMachine : Option (FakeObjectTracker σ ω)
  ControlCore : Option (FakeObjectTracker σ ω)
  TargetCore : Option (FakeObjectTracker σ ω)

/-- The function `NewFakeObjectTrackers`. -/
def NewFakeObjectTrackers
    (controlMachine controlCore targetCore : Option (FakeObjectTracker σ ω)) :
    FakeObjectTrackers σ ω :=
  { ControlMachine := controlMachine, ControlCore := controlCore, TargetCore := targetCore }

/-- The call `p.Stop()` through a pointer to a tracker: on a nil pointer it
panics when `Stop` reads the field `FakeWatcher`. -/
def stopThrough (p : Option (FakeObjectTracker σ ω)) :
    Outcome (List watcher) × Option (FakeObjectTracker σ ω) :=
  match p with
  | none => (.panic nilDereference, none)
  | some t =>
    match t.Stop with
    | (r, t1) => (r, some t1)

/-- The pointer is nil or points to a tracker without watch channel. -/
def lacksWatch (p : Option (FakeObjectTracker σ ω)) : Bool :=
  match p with
  | none => true
  | some t => t.FakeWatcher.isNone

/-- The method `FakeObjectTrackers.Stop`: stops the three trackers in turn. -/
def FakeObjectTrackers.Stop (o : FakeObjectTrackers σ ω) :
    Outcome Unit × FakeObjectTrackers σ ω :=
  match stopThrough o.ControlMachine with
  | (.panic e, _) => (.panic e, o)
  | (.err e, _) => (.err e, o)
  | (.ok _, cm) =>
    match stopThrough o.ControlCore with
    | (.panic e, _) => (.panic e, { o with ControlMachine := cm })
    | (.err e, _) => (.err e, { o with ControlMachine := cm })
    | (.ok _, cc) =>
      match stopThrough o.TargetCore with
      | (.panic e, _) => (.panic e, { o with ControlMachine := cm, ControlCore := cc })
      | (.err e, _) => (.err e, { o with ControlMachine := cm, ControlCore := cc })
      | (.ok _, tc) => (.ok (), { ControlMachine := cm, ControlCore := cc, TargetCore := tc })

/-! ## The delegate store

`k8stesting.NewObjectTracker` is not part of the repository.  The operations
of the tracker are stated for every implementation of the interface; where a
property speaks of the content of the store, the store below stands in. -/

/-- Modelled from the spec: an entry of the delegate object store of
sections 3 and 6, an object under its key
`(group-version-resource, namespace, name)`. -/
structure Entry where
  gvr : GroupVersionResource
  ns : String
  name : String
  object : Object
deriving DecidableEq, Repr

/-- Modelled from the spec: the state of the delegate object store, its
entries and the counter from which resource versions are given out. -/
structure Store where
  entries : List Entry
  revision : Nat
deriving DecidableEq, Repr

/-- Modelled from the spec: the entry is stored under the key. -/
def Entry.hasKey (e : Entry) (gvr : GroupVersionResource) (ns name : String) : Bool :=
  e.gvr == gvr && e.ns == ns && e.name == name

/-- Modelled from the spec: the object stored under a key, if there is one. -/
def Store.find (s : Store) (gvr : GroupVersionResource) (ns name : String) : Option Object :=
  (s.entries.find? (fun e => e.hasKey gvr ns name)).map (fun e => e.object)

/-- Modelled from the spec: the object with the resource-version stamp the
store assigns on a mutation. -/
def Store.stamp (rev : Nat) (obj : Object) (m : ObjectMeta) : Object :=
  .mk obj.typeMeta (some { m with ResourceVersion := toString rev })

/-- Modelled from the spec: `get` of the delegate store, which fails with
`NotFound` if the key is absent. -/
def Store.Get (s : Store) (gvr : GroupVersionResource) (ns name : String) :
    Outcome Object × Store :=
  match s.find gvr ns name with
  | some obj => (.ok obj, s)
  | none => (.err (.NotFound gvr.Resource name), s)

/-- Modelled from the spec: `create` of the delegate store, which fails with
`AlreadyExists` if an object with the same key exists and otherwise inserts
the object and assigns a new resource version.  An object whose metadata
cannot be read has no key and is refused.  The spec is silent on a nil
object: the store panics on it, as the client-go tracker does when it copies
the object. -/
def Store.Create (s : Store) (gvr : GroupVersionResource) (obj : Object) (ns : String) :
    Outcome Unit × Store :=
  if obj = .nil then (.panic nilDereference, s)
  else
  match Accessor obj with
  | .error e => (.err e, s)
  | .ok m =>
    match s.find gvr ns m.Name with
    | some _ => (.err (.AlreadyExists gvr.Resource m.Name), s)
    | none =>
      (.ok (),
        { entries := s.entries ++
            [{ gvr := gvr, ns := ns, name := m.Name,
               object := Store.stamp (s.revision + 1) obj m }],
          revision := s.revision + 1 })

/-- Modelled from the spec: `update` of the delegate store, which fails with
`NotFound` if the key is absent and otherwise replaces the object and assigns
a new resource version.  On a nil object it panics, as `create` does. -/
def Store.Update (s : Store) (gvr : GroupVersionResource) (obj : Object) (ns : String) :
    Outcome Unit × Store :=
  if obj = .nil then (.panic nilDereference, s)
  else
  match Accessor obj with
  | .error e => (.err e, s)
  | .ok m =>
    match s.find gvr ns m.Name with
    | none => (.err (.NotFound gvr.Resource m.Name), s)
    | some _ =>
      (.ok (),
        { entries := s.entries.map (fun e =>
            if e.hasKey gvr ns m.Name then
              { e with object := Store.stamp (s.revision + 1) obj m }
            else e),
          revision := s.revision + 1 })

/-- Modelled from the spec: `delete` of the delegate store, which fails with
`NotFound` if the key is absent and otherwise removes the object. -/
def Store.Delete (s : Store) (gvr : GroupVersionResource) (ns name : String) :
    Outcome Unit × Store :=
  match s.find gvr ns name with
  | none => (.err (.NotFound gvr.Resource name), s)
  | some _ =>
    (.ok (),
      { entries := s.entries.filter (fun e => !e.hasKey gvr ns name),
        revision := s.revision + 1 })

/-- Modelled from the spec: `list` of the delegate store, which returns all
stored objects of the resource and namespace and never fails. -/
def Store.List (s : Store) (gvr : GroupVersionResource) (_gvk : GroupVersionKind)
    (ns : String) : Outcome ObjectList × Store :=
  let found := s.entries.filter (fun e => e.gvr == gvr && e.ns == ns)
  (.ok { Items := found.map (fun e => e.object) }, s)

/-- Modelled from the spec: `add` of the delegate store, `create` under the
resource guessed from the kind of the object and the namespace of the object.
An object whose type or metadata cannot be read, nil included, is refused
with an error. -/
def Store.Add (guess : Guess) (s : Store) (obj : Object) : Outcome Unit × Store :=
  match TypeAccessor obj with
  | .error e => (.err e, s)
  | .ok t =>
    match Accessor obj with
    | .error e => (.err e, s)
    | .ok m => s.Create (guess t.APIVersion t.Kind) obj m.Namespace

/-- Modelled from the spec: `watch` of the delegate store, a new event
source. -/
def Store.Watch (s : Store) (_gvr : GroupVersionResource) (_ns : String) :
    Outcome watch.FakeWatcher × Store :=
  (.ok watch.NewFake, s)

/-- Modelled from the spec: the delegate object store of section 6 as an
implementation of `k8stesting.ObjectTracker`. -/
def objectStore (guess : Guess) : k8stesting.ObjectTracker Store watch.FakeWatcher :=
  { Add := Store.Add guess, Get := Store.Get, Create := Store.Create, Update := Store.Update,
    List := Store.List, Delete := Store.Delete, Watch := Store.Watch }

/-- A tracker over the delegate store with the given content, watch channel
and faking options, and no registered watcher. -/
def storeTracker (guess : Guess) (fw : Option watch.FakeWatcher) (s : Store)
    (o : fakingOptions) : FakeObjectTracker Store watch.FakeWatcher :=
  { FakeWatcher := fw, delegatee := objectStore guess, objects := s, watchers := [],
    slept := 0, fakingOptions := o }

/-! ## Sequences of mutating calls -/

/-- A mutating call on the tracker. -/
inductive Mutation where
  | Create (gvr : GroupVersionResource) (obj : Object) (ns : String)
  | Update (gvr : GroupVersionResource) (obj : Object) (ns : String)
  | Delete (gvr : GroupVersionResource) (ns name : String)
deriving DecidableEq, Repr

/-- The call made on the tracker. -/
def Mutation.run (m : Mutation) (t : FakeObjectTracker σ ω) :
    Outcome Unit × FakeObjectTracker σ ω :=
  match m with
  | .Create gvr obj ns => t.Create gvr obj ns
  | .Update gvr obj ns => t.Update gvr obj ns
  | .Delete gvr ns name => t.Delete gvr ns name

/-- The type of the change event of a mutating call. -/
def Mutation.eventType : Mutation → watch.EventType
  | .Create _ _ _ => .Added
  | .Update _ _ _ => .Modified
  | .Delete _ _ _ => .Deleted

/-- The tracker after the calls were made one after the other, when each of
them returned without error; `none` when one did not. -/
def runMutations (t : FakeObjectTracker σ ω) : List Mutation → Option (FakeObjectTracker σ ω)
  | [] => some t
  | m :: ms =>
    match m.run t with
    | (.ok _, t1) => runMutations t1 ms
    | (.err _, _) => none
    | (.panic _, _) => none

/-! ## Comparing two runs -/

/-- Two runs of an operation have the same effect: the same Go result, and
the same delegate state, channel of the tracker and registered watchers
afterwards.  The faking options and the time slept are not compared. -/
def sameEffect {α : Type} (a b : Outcome α × FakeObjectTracker σ ω) : Prop :=
  a.1 = b.1 ∧ a.2.objects = b.2.objects ∧ a.2.FakeWatcher = b.2.FakeWatcher ∧
    a.2.watchers = b.2.watchers

/-- The run `r` of an operation on the tracker `t` was refused with the error
text `m` before anything happened: the Go result is `errors.New(m)`, and the
delegate state, the channel of the tracker and the registered watchers are
those of `t`. -/
def refusedWith {α : Type} (m : String) (t : FakeObjectTracker σ ω)
    (r : Outcome α × FakeObjectTracker σ ω) : Prop :=
  r.1 = .err (.New m) ∧ r.2.objects = t.objects ∧ r.2.FakeWatcher = t.FakeWatcher ∧
    r.2.watchers = t.watchers

/-- The state of the delegate after the objects were added to it one after
the other, `none` when one `Add` of the delegate returns an error or panics. -/
def addsTo (d : k8stesting.ObjectTracker σ ω) : σ → List Object → Option σ
  | s, [] => some s
  | s, obj :: objects =>
    match d.Add s obj with
    | (.ok _, s1) => addsTo d s1 objects
    | (.err _, _) => none
    | (.panic _, _) => none

/-! ## Concrete values

The inputs at which the properties below are evaluated. -/

/-- A resource guess for the examples: the empty kind has the empty resource,
the kind `Node` has the resource `nodes`, any other kind gets an `s`. -/
def sampleGuess : Guess := fun apiVersion kind =>
  { Group := "", Version := apiVersion,
    Resource :=
      if kind = "" then "" else if kind = "Node" then "nodes" else kind ++ "s" }

/-- The resource `nodes` of the core API group. -/
def nodesResource : GroupVersionResource :=
  { Group := "", Version := "v1", Resource := "nodes" }

/-- A node object named `node-1`. -/
def sampleNode : Object :=
  .mk (some { APIVersion := "v1", Kind := "Node" })
    (some { Name := "node-1", Namespace := "", ResourceVersion := "",
            Labels := [("role", "worker")] })

/-- An object whose metadata cannot be read by `meta.Accessor`. -/
def opaqueObject : Object :=
  .mk (some { APIVersion := "v1", Kind := "Status" }) none

/-- The delegate store without objects. -/
def emptyStore : Store :=
  { entries := [], revision := 0 }

/-- The node `sampleNode` as the store keeps it, with the first resource
version. -/
def storedNode : Object :=
  .mk (some { APIVersion := "v1", Kind := "Node" })
    (some { Name := "node-1", Namespace := "", ResourceVersion := "1",
            Labels := [("role", "worker")] })

/-- The delegate store after `sampleNode` was created in the empty store: it
holds `storedNode` under `(nodes, "", node-1)`. -/
def nodeStore : Store :=
  { entries := [{ gvr := nodesResource, ns := "", name := "node-1", object := storedNode }],
    revision := 1 }

/-- Targeted failures that name a message for the update of a node only. -/
def nodeUpdateFails : ResourceActions :=
  { Node := { Create := "", Get := "", Delete := "", Update := "node update failed" } }

/-- A watch action on the nodes of all namespaces, without restrictions. -/
def watchNodes : k8stesting.WatchAction :=
  { Resource := nodesResource, Namespace := "",
    WatchRestrictions := { Labels := none, Fields := none, ResourceVersion := "" } }

/-- A new watcher for `watchNodes`. -/
def nodeWatcher : watcher :=
  { FakeWatcher := watch.NewFake, action := watchNodes }

/-- A node object named `node-2` whose API version and kind are not filled
in, as in an object built from its Go struct without `TypeMeta`. -/
def untypedNode : Object :=
  .mk (some { APIVersion := "", Kind := "" })
    (some { Name := "node-2", Namespace := "", ResourceVersion := "", Labels := [] })

/-- A live tracker over the empty store with `nodeWatcher` registered. -/
def watchedTracker : FakeObjectTracker Store watch.FakeWatcher :=
  { FakeWatcher := some watch.NewFake, delegatee := objectStore sampleGuess,
    objects := emptyStore, watchers := [nodeWatcher], slept := 0,
    fakingOptions := fakingOptions.zero }

/-- The creation, the update and the deletion of `sampleNode`. -/
def nodeLifecycle : List Mutation :=
  [.Create nodesResource sampleNode "", .Update nodesResource sampleNode "",
   .Delete nodesResource "" "node-1"]

/-- The items pointer of a list object. -/
def itemsPtrOf : GetItemsPtr := fun l => .ok l.Items

/-! ## The filter of a watcher -/

/-- C1: `watcher.handles` accepts an event exactly when the watcher is not
stopped, the type and the object metadata of the event object can be read, the
resource guessed from the API version and kind of the object is handled for
the watch action, the resource version of the watch restrictions is empty or
equal to the one of the object, the field selector is absent or matches the
field set of name and namespace, and the label selector is absent or matches
the labels of the object. -/
theorem handles_iff (guess : Guess) (w : watcher) (event : watch.Event) :
    w.handles guess event = true ↔
      w.FakeWatcher.IsStopped = false ∧
      ∃ t o, TypeAccessor event.Object = .ok t ∧ Accessor event.Object = .ok o ∧
        (k8stesting.SimpleWatchReactor.mk (guess t.APIVersion t.Kind).Resource).Handles
          w.action = true ∧
        (w.action.WatchRestrictions.ResourceVersion = "" ∨
          o.ResourceVersion = w.action.WatchRestrictions.ResourceVersion) ∧
        (∀ sel, w.action.WatchRestrictions.Fields = some sel →
          sel.Matches [("metadata.name", o.Name), ("metadata.namespace", o.Namespace)]
            = true) ∧
        (∀ sel, w.action.WatchRestrictions.Labels = some sel →
          sel.Matches o.Labels = true) := by
  unfold watcher.handles
  cases hs : w.FakeWatcher.IsStopped
  · cases ht : TypeAccessor event.Object with
    | error e => simp
    | ok t =>
      cases hh : (k8stesting.SimpleWatchReactor.mk (guess t.APIVersion t.Kind).Resource).Handles
          w.action
      · simp [hh]
      · cases ho : Accessor event.Object with
        | error e => simp
        | ok o =>
          cases hf : w.action.WatchRestrictions.Fields <;>
          cases hl : w.action.WatchRestrictions.Labels <;>
          simp [hh, hf, hl]
  · simp

/-! ## Change events of the mutating operations -/

/-- C2: on a tracker with watch support that is not stopped and with fault
injection disabled, `Create`, `Update` and `Delete` send exactly one event on
the channel of the tracker when the delegate succeeds (`Added`, `Modified`,
`Deleted`), and send no event and return the error of the delegate when the
delegate fails.  For `Delete` the delegate is called twice, `Get` then
`Delete`: the event is sent when both succeed, the error of `Delete` is
returned when `Delete` fails after a `Get` that returned, and the error of
`Get` when only `Get` fails. -/
theorem mutation_sends_one_event (t : FakeObjectTracker σ ω) (fw : watch.FakeWatcher)
    (hw : t.FakeWatcher = some fw) (hs : fw.IsStopped = false)
    (hf : t.fakingOptions.fakingEnabled = false)
    (gvr : GroupVersionResource) (obj : Object) (ns name : String) :
    (∀ s, t.delegatee.Create t.objects gvr obj ns = (.ok (), s) →
      t.Create gvr obj ns = (.ok (), { t with
        objects := s,
        FakeWatcher := some { fw with result := fw.result ++ [{ Typ := .Added, Object := obj }] } })) ∧
    (∀ e s, t.delegatee.Create t.objects gvr obj ns = (.err e, s) →
      t.Create gvr obj ns = (.err e, { t with objects := s })) ∧
    (∀ s, t.delegatee.Update t.objects gvr obj ns = (.ok (), s) →
      t.Update gvr obj ns = (.ok (), { t with
        objects := s,
        FakeWatcher := some { fw with result := fw.result ++ [{ Typ := .Modified, Object := obj }] } })) ∧
    (∀ e s, t.delegatee.Update t.objects gvr obj ns = (.err e, s) →
      t.Update gvr obj ns = (.err e, { t with objects := s })) ∧
    (∀ old s1 s, t.delegatee.Get t.objects gvr ns name = (.ok old, s1) →
      t.delegatee.Delete s1 gvr ns name = (.ok (), s) →
      t.Delete gvr ns name = (.ok (), { t with
        objects := s,
        FakeWatcher := some { fw with result := fw.result ++ [{ Typ := .Deleted, Object := old }] } })) ∧
    (∀ got s1 e s, t.delegatee.Get t.objects gvr ns name = (got, s1) →
      got.isPanic = false →
      t.delegatee.Delete s1 gvr ns name = (.err e, s) →
      t.Delete gvr ns name = (.err e, { t with objects := s })) ∧
    (∀ e s1 s, t.delegatee.Get t.objects gvr ns name = (.err e, s1) →
      t.delegatee.Delete s1 gvr ns name = (.ok (), s) →
      t.Delete gvr ns name = (.err e, { t with objects := s })) := by
  have hs2 : fw.Stopped = false := hs
  refine ⟨?_, ?_, ?_, ?_, ?_, ?_, ?_⟩
  · intro s h
    simp [FakeObjectTracker.Create, FakeObjectTracker.runFakes, hf, h, hw, hs,
      watch.FakeWatcher.Add, watch.FakeWatcher.Action, hs2]
  · intro e s h
    simp [FakeObjectTracker.Create, FakeObjectTracker.runFakes, hf, h]
  · intro s h
    simp [FakeObjectTracker.Update, FakeObjectTracker.runFakes, hf, h, hw, hs,
      watch.FakeWatcher.Modify, watch.FakeWatcher.Action, hs2]
  · intro e s h
    simp [FakeObjectTracker.Update, FakeObjectTracker.runFakes, hf, h]
  · intro old s1 s h1 h2
    simp [FakeObjectTracker.Delete, FakeObjectTracker.runFakes, hf, h1, h2, hw, hs,
      watch.FakeWatcher.Delete, watch.FakeWatcher.Action, hs2]
  · intro got s1 e s h1 hp h2
    cases got with
    | panic e0 => simp [Outcome.isPanic] at hp
    | ok old => simp [FakeObjectTracker.Delete, FakeObjectTracker.runFakes, hf, h1, h2]
    | err e0 => simp [FakeObjectTracker.Delete, FakeObjectTracker.runFakes, hf, h1, h2]
  · intro e s1 s h1 h2
    simp [FakeObjectTracker.Delete, FakeObjectTracker.runFakes, hf, h1, h2]

/-- C2 at a concrete input, a tracker over the store that holds one node (the store a creation of the node in the empty store leaves):
creating the node fails with the error of the delegate and sends nothing,
deleting it sends one `Deleted` event with the stored node. -/
theorem mutation_sends_one_event_witness :
    (emptyStore.Create nodesResource sampleNode "").2 = nodeStore ∧
    (storeTracker sampleGuess (some watch.NewFake) nodeStore fakingOptions.zero).FakeWatcher
        = some watch.NewFake ∧
    watch.NewFake.IsStopped = false ∧
    fakingOptions.zero.fakingEnabled = false ∧
    ((storeTracker sampleGuess (some watch.NewFake) nodeStore fakingOptions.zero).Create
        nodesResource sampleNode "").1 = .err (.AlreadyExists "nodes" "node-1") ∧
    ((storeTracker sampleGuess (some watch.NewFake) nodeStore fakingOptions.zero).Delete
        nodesResource "" "node-1").2.FakeWatcher
      = some { result := [{ Typ := .Deleted, Object := storedNode }], Stopped := false } := by
  have h := mutation_sends_one_event
    (storeTracker sampleGuess (some watch.NewFake) nodeStore fakingOptions.zero)
    watch.NewFake rfl rfl rfl nodesResource sampleNode "" "node-1"
  refine ⟨rfl, rfl, rfl, rfl, ?_, ?_⟩
  · rw [h.2.1 (.AlreadyExists "nodes" "node-1") nodeStore rfl]
  · rw [h.2.2.2.2.1 storedNode nodeStore
      { entries := [], revision := 2 } rfl rfl]
    rfl

/-! ## Deletion -/

/-- An entry has at most one key. -/
theorem Entry.hasKey_iff (e : Entry) (gvr : GroupVersionResource) (ns name : String) :
    e.hasKey gvr ns name = true ↔ e.gvr = gvr ∧ e.ns = ns ∧ e.name = name := by
  simp [Entry.hasKey, and_assoc]

/-- After `delete` of the store the key is absent. -/
theorem Store.find_Delete_self (s : Store) (gvr : GroupVersionResource) (ns name : String) :
    (s.Delete gvr ns name).2.find gvr ns name = none := by
  unfold Store.Delete
  cases h : s.find gvr ns name with
  | none => simpa using h
  | some obj =>
    simp only [Store.find, Option.map_eq_none', List.find?_eq_none]
    intro e he
    simp only [List.mem_filter] at he
    simpa using he.2

/-- The operation `delete` of the store leaves the other keys as they are. -/
theorem Store.find_Delete_other (s : Store) (gvr gvr1 : GroupVersionResource)
    (ns name ns1 name1 : String) (hne : ¬ (gvr1 = gvr ∧ ns1 = ns ∧ name1 = name)) :
    (s.Delete gvr ns name).2.find gvr1 ns1 name1 = s.find gvr1 ns1 name1 := by
  unfold Store.Delete
  cases h : s.find gvr ns name with
  | none => rfl
  | some obj =>
    simp only [Store.find, List.find?_filter]
    congr 2
    funext e
    by_cases hk : e.hasKey gvr1 ns1 name1 = true
    · have h1 := (Entry.hasKey_iff e gvr1 ns1 name1).1 hk
      have h2 : ¬ (e.hasKey gvr ns name = true) := by
        intro h3
        have h4 := (Entry.hasKey_iff e gvr ns name).1 h3
        exact hne ⟨h1.1.symm.trans h4.1, h1.2.1.symm.trans h4.2.1, h1.2.2.symm.trans h4.2.2⟩
      simp [hk, h2]
    · simp [hk]

/-- C3, as stated, fails: with the static error `boom` configured, `Delete` of
a key that is absent from the delegate store returns the injected error and
not a not-found error. -/
theorem delete_absent_counterexample :
    emptyStore.find nodesResource "" "node-1" = none ∧
    ((storeTracker sampleGuess (some watch.NewFake) emptyStore
        (fakingOptions.zero.SetError "boom")).Delete nodesResource "" "node-1").1
      = .err (.New "boom") ∧
    ((storeTracker sampleGuess (some watch.NewFake) emptyStore
        (fakingOptions.zero.SetError "boom")).Delete nodesResource "" "node-1").1
      ≠ .err (.NotFound "nodes" "node-1") := by
  refine ⟨rfl, rfl, ?_⟩
  decide

/-- Without a static error in effect the opening block of an operation lets
the call through and changes nothing but the time slept. -/
theorem FakeObjectTracker.runFakes_of_no_error (t : FakeObjectTracker σ ω)
    (h : t.fakingOptions.fakingEnabled = false ∨ t.fakingOptions.errorMessage = "") :
    ∃ d, t.runFakes = (none, { t with slept := t.slept + d }) := by
  unfold FakeObjectTracker.runFakes
  cases he : t.fakingOptions.fakingEnabled
  · exact ⟨0, by simp⟩
  · have hm : t.fakingOptions.errorMessage = "" := by
      rcases h with h | h
      · rw [he] at h; cases h
      · exact h
    exact ⟨if t.fakingOptions.delay = 0 then 0 else sleepTime t.fakingOptions.delay,
      by simp [fakingOptions.RunFakeInvocations, hm]⟩

/-- C3, amended: on a tracker over the delegate store with no static error in
effect (fault injection disabled, or enabled with an empty error message),
`Delete` of an absent key returns the not-found error, sends no event and
leaves the store unchanged; `Delete` of a present key on a live tracker
returns without error, removes the key and no other, and sends one `Deleted`
event that carries the object `Get` returns for the key before the deletion. -/
theorem delete_absent_or_present (guess : Guess)
    (t : FakeObjectTracker Store watch.FakeWatcher)
    (hd : t.delegatee = objectStore guess)
    (hno : t.fakingOptions.fakingEnabled = false ∨ t.fakingOptions.errorMessage = "")
    (gvr : GroupVersionResource) (ns name : String) :
    (t.objects.find gvr ns name = none →
      (t.Delete gvr ns name).1 = .err (.NotFound gvr.Resource name) ∧
      (t.Delete gvr ns name).2.objects = t.objects ∧
      (t.Delete gvr ns name).2.FakeWatcher = t.FakeWatcher) ∧
    (∀ old fw, t.objects.find gvr ns name = some old → t.FakeWatcher = some fw →
      fw.IsStopped = false →
      (t.Get gvr ns name).1 = .ok old ∧
      (t.Delete gvr ns name).1 = .ok () ∧
      (t.Delete gvr ns name).2.objects.find gvr ns name = none ∧
      (∀ gvr1 ns1 name1, ¬ (gvr1 = gvr ∧ ns1 = ns ∧ name1 = name) →
        (t.Delete gvr ns name).2.objects.find gvr1 ns1 name1
          = t.objects.find gvr1 ns1 name1) ∧
      (t.Delete gvr ns name).2.FakeWatcher
        = some { fw with result := fw.result ++ [{ Typ := .Deleted, Object := old }] }) := by
  obtain ⟨d, hr⟩ := t.runFakes_of_no_error hno
  constructor
  · intro habs
    simp [FakeObjectTracker.Delete, hr, hd, objectStore, Store.Get, Store.Delete, habs]
  · intro old fw hpre hw hs
    have hs2 : fw.Stopped = false := hs
    have hdel : (t.objects.Delete gvr ns name).1 = .ok () := by
      simp [Store.Delete, hpre]
    refine ⟨?_, ?_, ?_, ?_, ?_⟩
    · simp [FakeObjectTracker.Get, hr, hd, objectStore, Store.Get, hpre]
    · simp [FakeObjectTracker.Delete, hr, hd, objectStore, Store.Get, Store.Delete, hpre, hw,
        hs, watch.FakeWatcher.Delete, watch.FakeWatcher.Action, hs2]
    · have h := Store.find_Delete_self t.objects gvr ns name
      simp [FakeObjectTracker.Delete, hr, hd, objectStore, Store.Get, Store.Delete, hpre, hw,
        hs, watch.FakeWatcher.Delete, watch.FakeWatcher.Action, hs2] at h ⊢
      exact h
    · intro gvr1 ns1 name1 hne
      have h := Store.find_Delete_other t.objects gvr gvr1 ns name ns1 name1 hne
      simp [FakeObjectTracker.Delete, hr, hd, objectStore, Store.Get, Store.Delete, hpre, hw,
        hs, watch.FakeWatcher.Delete, watch.FakeWatcher.Action, hs2] at h ⊢
      exact h
    · simp [FakeObjectTracker.Delete, hr, hd, objectStore, Store.Get, Store.Delete, hpre, hw,
        hs, watch.FakeWatcher.Delete, watch.FakeWatcher.Action, hs2]

/-- C3, amended, at a concrete input, the store that holds one node:
the key `node-2` is absent and its deletion is refused, the key `node-1` is
present and its deletion sends the stored node. -/
theorem delete_absent_or_present_witness :
    (storeTracker sampleGuess (some watch.NewFake) nodeStore fakingOptions.zero).delegatee
      = objectStore sampleGuess ∧
    (fakingOptions.zero.fakingEnabled = false ∨ fakingOptions.zero.errorMessage = "") ∧
    nodeStore.find nodesResource "" "node-2" = none ∧
    ((storeTracker sampleGuess (some watch.NewFake) nodeStore fakingOptions.zero).Delete
        nodesResource "" "node-2").1 = .err (.NotFound "nodes" "node-2") ∧
    nodeStore.find nodesResource "" "node-1" = some storedNode ∧
    ((storeTracker sampleGuess (some watch.NewFake) nodeStore fakingOptions.zero).Delete
        nodesResource "" "node-1").1 = .ok () ∧
    ((storeTracker sampleGuess (some watch.NewFake) nodeStore fakingOptions.zero).Delete
        nodesResource "" "node-1").2.FakeWatcher
      = some { result := [{ Typ := .Deleted, Object := storedNode }], Stopped := false } := by
  have h1 := (delete_absent_or_present sampleGuess
    (storeTracker sampleGuess (some watch.NewFake) nodeStore fakingOptions.zero)
    rfl (Or.inl rfl) nodesResource "" "node-2").1 rfl
  have h2 := (delete_absent_or_present sampleGuess
    (storeTracker sampleGuess (some watch.NewFake) nodeStore fakingOptions.zero)
    rfl (Or.inl rfl) nodesResource "" "node-1").2 storedNode watch.NewFake rfl rfl rfl
  exact ⟨rfl, Or.inl rfl, rfl, h1.1, rfl, h2.2.1, h2.2.2.2.2⟩

/-! ## Fault injection -/

/-- C4: after `SetFakeResourceActions` has configured a non-empty node-update
message `m`, with no static error set, `Update` on the resource `nodes`
returns the error `m` and leaves the delegate state and the channel untouched,
whatever the delegate is; `Update` on any other resource and `Create`, `Get`,
`Delete`, `List`, `Add` and `Watch` on any resource have the effect they have
on the same tracker with fault injection disabled. -/
theorem node_update_failure_only (t : FakeObjectTracker σ ω) (ra : ResourceActions)
    (m : String) (hm : ra.Node.Update = m) (hne : m ≠ "")
    (he : t.fakingOptions.errorMessage = "")
    (o0 : fakingOptions) (h0 : o0.fakingEnabled = false)
    (gvr : GroupVersionResource) (gvk : GroupVersionKind) (obj : Object) (ns name : String) :
    (gvr.Resource = "nodes" →
      ({ t with fakingOptions := t.fakingOptions.SetFakeResourceActions ra }.Update
          gvr obj ns).1 = .err (.New m) ∧
      ({ t with fakingOptions := t.fakingOptions.SetFakeResourceActions ra }.Update
          gvr obj ns).2.objects = t.objects ∧
      ({ t with fakingOptions := t.fakingOptions.SetFakeResourceActions ra }.Update
          gvr obj ns).2.FakeWatcher = t.FakeWatcher) ∧
    (gvr.Resource ≠ "nodes" →
      sameEffect
        ({ t with fakingOptions := t.fakingOptions.SetFakeResourceActions ra }.Update gvr obj ns)
        ({ t with fakingOptions := o0 }.Update gvr obj ns)) ∧
    sameEffect
      ({ t with fakingOptions := t.fakingOptions.SetFakeResourceActions ra }.Create gvr obj ns)
      ({ t with fakingOptions := o0 }.Create gvr obj ns) ∧
    sameEffect
      ({ t with fakingOptions := t.fakingOptions.SetFakeResourceActions ra }.Get gvr ns name)
      ({ t with fakingOptions := o0 }.Get gvr ns name) ∧
    sameEffect
      ({ t with fakingOptions := t.fakingOptions.SetFakeResourceActions ra }.Delete gvr ns name)
      ({ t with fakingOptions := o0 }.Delete gvr ns name) ∧
    sameEffect
      ({ t with fakingOptions := t.fakingOptions.SetFakeResourceActions ra }.List gvr gvk ns)
      ({ t with fakingOptions := o0 }.List gvr gvk ns) ∧
    sameEffect
      ({ t with fakingOptions := t.fakingOptions.SetFakeResourceActions ra }.Add obj)
      ({ t with fakingOptions := o0 }.Add obj) ∧
    sameEffect
      ({ t with fakingOptions := t.fakingOptions.SetFakeResourceActions ra }.Watch gvr name)
      ({ t with fakingOptions := o0 }.Watch gvr name) := by
  subst hm
  refine ⟨?_, ?_, ?_, ?_, ?_, ?_, ?_, ?_⟩
  · intro hn
    simp [FakeObjectTracker.Update, FakeObjectTracker.runFakes,
      fakingOptions.SetFakeResourceActions, fakingOptions.RunFakeInvocations, he, hn, hne]
  · intro hn
    rcases hu : t.delegatee.Update t.objects gvr obj ns with ⟨r, s⟩
    rcases hw : t.FakeWatcher with _ | ⟨res, st⟩ <;> cases r <;> (try cases st) <;>
      simp [sameEffect, FakeObjectTracker.Update, FakeObjectTracker.runFakes,
        fakingOptions.SetFakeResourceActions, fakingOptions.RunFakeInvocations, he, hn, h0,
        hu, hw, watch.FakeWatcher.IsStopped, watch.FakeWatcher.Modify,
        watch.FakeWatcher.Action]
  · rcases hu : t.delegatee.Create t.objects gvr obj ns with ⟨r, s⟩
    rcases hw : t.FakeWatcher with _ | ⟨res, st⟩ <;> cases r <;> (try cases st) <;>
      simp [sameEffect, FakeObjectTracker.Create, FakeObjectTracker.runFakes,
        fakingOptions.SetFakeResourceActions, fakingOptions.RunFakeInvocations, he, h0,
        hu, hw, watch.FakeWatcher.IsStopped, watch.FakeWatcher.Add,
        watch.FakeWatcher.Action]
  · rcases hu : t.delegatee.Get t.objects gvr ns name with ⟨r, s⟩
    cases r <;>
      simp [sameEffect, FakeObjectTracker.Get, FakeObjectTracker.runFakes,
        fakingOptions.SetFakeResourceActions, fakingOptions.RunFakeInvocations, he, h0, hu]
  · rcases hg : t.delegatee.Get t.objects gvr ns name with ⟨got, s1⟩
    rcases hu : t.delegatee.Delete s1 gvr ns name with ⟨r, s⟩
    rcases hw : t.FakeWatcher with _ | ⟨res, st⟩ <;> cases r <;> cases got <;>
      (try cases st) <;>
      simp [sameEffect, FakeObjectTracker.Delete, FakeObjectTracker.runFakes,
        fakingOptions.SetFakeResourceActions, fakingOptions.RunFakeInvocations, he, h0,
        hg, hu, hw, watch.FakeWatcher.IsStopped, watch.FakeWatcher.Delete,
        watch.FakeWatcher.Action]
  · rcases hu : t.delegatee.List t.objects gvr gvk ns with ⟨r, s⟩
    cases r <;>
      simp [sameEffect, FakeObjectTracker.List, FakeObjectTracker.runFakes,
        fakingOptions.SetFakeResourceActions, fakingOptions.RunFakeInvocations, he, h0, hu]
  · rcases hu : t.delegatee.Add t.objects obj with ⟨r, s⟩
    cases r <;>
      simp [sameEffect, FakeObjectTracker.Add, FakeObjectTracker.runFakes,
        fakingOptions.SetFakeResourceActions, fakingOptions.RunFakeInvocations, he, h0, hu]
  · rcases hu : t.delegatee.Watch t.objects gvr name with ⟨r, s⟩
    cases r <;>
      simp [sameEffect, FakeObjectTracker.Watch, FakeObjectTracker.runFakes,
        fakingOptions.SetFakeResourceActions, fakingOptions.RunFakeInvocations, he, h0, hu]

/-- C4 at a concrete input, the store that holds one node:
the update of the node is refused with the configured message, its creation
has the effect it has with fault injection disabled. -/
theorem node_update_failure_only_witness :
    nodeUpdateFails.Node.Update = "node update failed" ∧
    "node update failed" ≠ "" ∧
    (storeTracker sampleGuess (some watch.NewFake) nodeStore fakingOptions.zero
      ).fakingOptions.errorMessage = "" ∧
    fakingOptions.zero.fakingEnabled = false ∧
    nodesResource.Resource = "nodes" ∧
    ({ storeTracker sampleGuess (some watch.NewFake) nodeStore fakingOptions.zero with
        fakingOptions := fakingOptions.zero.SetFakeResourceActions nodeUpdateFails }.Update
          nodesResource sampleNode "").1 = .err (.New "node update failed") ∧
    sameEffect
      ({ storeTracker sampleGuess (some watch.NewFake) nodeStore fakingOptions.zero with
          fakingOptions := fakingOptions.zero.SetFakeResourceActions nodeUpdateFails }.Create
            nodesResource sampleNode "")
      ({ storeTracker sampleGuess (some watch.NewFake) nodeStore fakingOptions.zero with
          fakingOptions := fakingOptions.zero }.Create nodesResource sampleNode "") := by
  have h := node_update_failure_only
    (storeTracker sampleGuess (some watch.NewFake) nodeStore fakingOptions.zero)
    nodeUpdateFails "node update failed" rfl (by decide) rfl fakingOptions.zero rfl
    nodesResource { Group := "", Version := "v1", Kind := "Node" } sampleNode "" "node-1"
  exact ⟨rfl, by decide, rfl, rfl, rfl, (h.1 rfl).1, h.2.2.1⟩

/-- The method `ClearOptions` resets the enabled flag, the static error and
the delay, and keeps the targeted failures. -/
theorem fakingOptions.ClearOptions_eq (o : fakingOptions) (message : String) :
    o.ClearOptions message
      = { fakingEnabled := false, errorMessage := "", delay := 0, failAt := o.failAt } := by
  rfl

/-- C5, the code at the failing input: after targeted failures were set,
`ClearOptions` leaves a configuration that is not the initial one, the
node-update message is still there, and it fails node updates again as soon as
fault injection is enabled by `SetDelay`. -/
theorem ClearOptions_keeps_failAt :
    (fakingOptions.zero.SetFakeResourceActions nodeUpdateFails).ClearOptions ""
      ≠ fakingOptions.zero ∧
    ((fakingOptions.zero.SetFakeResourceActions nodeUpdateFails).ClearOptions ""
      ).failAt.Node.Update = "node update failed" ∧
    ((storeTracker sampleGuess (some watch.NewFake) nodeStore
        (((fakingOptions.zero.SetFakeResourceActions nodeUpdateFails).ClearOptions ""
          ).SetDelay 0)).Update nodesResource sampleNode "").1
      = .err (.New "node update failed") := by
  refine ⟨by decide, rfl, rfl⟩

/-- C6, as stated, fails: with the static error `boom` and the node-update
message `node update failed` both configured, `Update` on `nodes` returns the
static error, not the targeted one. -/
theorem node_update_precedence_counterexample :
    ((fakingOptions.zero.SetFakeResourceActions nodeUpdateFails).SetError "boom"
      ).fakingEnabled = true ∧
    ((fakingOptions.zero.SetFakeResourceActions nodeUpdateFails).SetError "boom"
      ).errorMessage = "boom" ∧
    ((fakingOptions.zero.SetFakeResourceActions nodeUpdateFails).SetError "boom"
      ).failAt.Node.Update = "node update failed" ∧
    ((storeTracker sampleGuess (some watch.NewFake) nodeStore
        ((fakingOptions.zero.SetFakeResourceActions nodeUpdateFails).SetError "boom")).Update
          nodesResource sampleNode "").1 = .err (.New "boom") ∧
    ((storeTracker sampleGuess (some watch.NewFake) nodeStore
        ((fakingOptions.zero.SetFakeResourceActions nodeUpdateFails).SetError "boom")).Update
          nodesResource sampleNode "").1 ≠ .err (.New "node update failed") := by
  refine ⟨rfl, rfl, rfl, rfl, by decide⟩

/-- C6, amended: for an `Update` with fault injection enabled and a non-empty
static error message `E`, the static error comes first: `Update` returns the
error with text `E` and leaves the delegate state and the channel untouched,
on every resource and whatever the targeted messages are, so also on `nodes`
with a non-empty node-update message configured. -/
theorem static_error_precedes_node_update (t : FakeObjectTracker σ ω) (E : String)
    (hen : t.fakingOptions.fakingEnabled = true)
    (hE : t.fakingOptions.errorMessage = E) (hEne : E ≠ "")
    (gvr : GroupVersionResource) (obj : Object) (ns : String) :
    refusedWith E t (t.Update gvr obj ns) := by
  subst hE
  simp [refusedWith, FakeObjectTracker.Update, FakeObjectTracker.runFakes,
    fakingOptions.RunFakeInvocations, hen, hEne]

/-- C6, amended, at a concrete input, a tracker with the
static error `boom` and the node-update message `node update failed`, for an
update of a node. -/
theorem static_error_precedes_node_update_witness :
    ((fakingOptions.zero.SetFakeResourceActions nodeUpdateFails).SetError "boom"
      ).fakingEnabled = true ∧
    ((fakingOptions.zero.SetFakeResourceActions nodeUpdateFails).SetError "boom"
      ).errorMessage = "boom" ∧
    "boom" ≠ "" ∧
    ((fakingOptions.zero.SetFakeResourceActions nodeUpdateFails).SetError "boom"
      ).failAt.Node.Update = "node update failed" ∧
    nodesResource.Resource = "nodes" ∧
    refusedWith "boom"
      (storeTracker sampleGuess (some watch.NewFake) nodeStore
        ((fakingOptions.zero.SetFakeResourceActions nodeUpdateFails).SetError "boom"))
      ((storeTracker sampleGuess (some watch.NewFake) nodeStore
        ((fakingOptions.zero.SetFakeResourceActions nodeUpdateFails).SetError "boom")).Update
          nodesResource sampleNode "") :=
  ⟨rfl, rfl, by decide, rfl, rfl,
    static_error_precedes_node_update
      (storeTracker sampleGuess (some watch.NewFake) nodeStore
        ((fakingOptions.zero.SetFakeResourceActions nodeUpdateFails).SetError "boom"))
      "boom" rfl rfl (by decide) nodesResource sampleNode ""⟩

/-- C7: for every non-empty message `m`, after `SetError(m)` each of `Add`,
`Get`, `Create`, `Update`, `List`, `Delete` and `Watch` returns the error with
text `m`, on every resource and whatever the targeted failures are; the state
of the delegate is the one before the call, whatever the delegate is, and
nothing is sent on the channel of the tracker. -/
theorem static_error_short_circuits (t : FakeObjectTracker σ ω) (m : String) (hm : m ≠ "")
    (gvr : GroupVersionResource) (gvk : GroupVersionKind) (obj : Object) (ns name : String) :
    refusedWith m t ({ t with fakingOptions := t.fakingOptions.SetError m }.Add obj) ∧
    refusedWith m t ({ t with fakingOptions := t.fakingOptions.SetError m }.Get gvr ns name) ∧
    refusedWith m t ({ t with fakingOptions := t.fakingOptions.SetError m }.Create gvr obj ns) ∧
    refusedWith m t ({ t with fakingOptions := t.fakingOptions.SetError m }.Update gvr obj ns) ∧
    refusedWith m t ({ t with fakingOptions := t.fakingOptions.SetError m }.List gvr gvk ns) ∧
    refusedWith m t ({ t with fakingOptions := t.fakingOptions.SetError m }.Delete gvr ns name) ∧
    refusedWith m t ({ t with fakingOptions := t.fakingOptions.SetError m }.Watch gvr name) := by
  refine ⟨?_, ?_, ?_, ?_, ?_, ?_, ?_⟩ <;>
    simp [refusedWith, FakeObjectTracker.Add, FakeObjectTracker.Get, FakeObjectTracker.Create,
      FakeObjectTracker.Update, FakeObjectTracker.List, FakeObjectTracker.Delete,
      FakeObjectTracker.Watch, FakeObjectTracker.runFakes, fakingOptions.SetError,
      fakingOptions.RunFakeInvocations, hm]

/-- C7 at a concrete input, the message `boom` and the
store that holds one node, with a node-update message configured as well: `Get`
of the stored node and `Update` of it are refused with `boom`. -/
theorem static_error_short_circuits_witness :
    "boom" ≠ "" ∧
    ({ storeTracker sampleGuess (some watch.NewFake) nodeStore
          (fakingOptions.zero.SetFakeResourceActions nodeUpdateFails) with
        fakingOptions :=
          (fakingOptions.zero.SetFakeResourceActions nodeUpdateFails).SetError "boom" }.Get
            nodesResource "" "node-1").1 = .err (.New "boom") ∧
    ({ storeTracker sampleGuess (some watch.NewFake) nodeStore
          (fakingOptions.zero.SetFakeResourceActions nodeUpdateFails) with
        fakingOptions :=
          (fakingOptions.zero.SetFakeResourceActions nodeUpdateFails).SetError "boom" }.Update
            nodesResource sampleNode "").1 = .err (.New "boom") := by
  have h := static_error_short_circuits
    (storeTracker sampleGuess (some watch.NewFake) nodeStore
      (fakingOptions.zero.SetFakeResourceActions nodeUpdateFails))
    "boom" (by decide) nodesResource { Group := "", Version := "v1", Kind := "Node" }
    sampleNode "" "node-1"
  exact ⟨by decide, h.2.1.1, h.2.2.2.1.1⟩

/-! ## Creation without a live channel -/

/-- An object whose metadata can be read is not nil. -/
theorem Object.ne_nil_of_objectMeta (obj : Object) (m : ObjectMeta)
    (hobj : obj.objectMeta = some m) : obj ≠ .nil := by
  intro h
  rw [h] at hobj
  simp [Object.objectMeta] at hobj

/-- After a successful `create` of the store the key holds the stamped
object. -/
theorem Store.find_Create (s : Store) (gvr : GroupVersionResource) (obj : Object)
    (ns : String) (m : ObjectMeta) (hobj : obj.objectMeta = some m)
    (habs : s.find gvr ns m.Name = none) :
    s.Create gvr obj ns
      = (.ok (),
          { entries := s.entries ++
              [{ gvr := gvr, ns := ns, name := m.Name,
                 object := Store.stamp (s.revision + 1) obj m }],
            revision := s.revision + 1 }) ∧
    (s.Create gvr obj ns).2.find gvr ns m.Name
      = some (Store.stamp (s.revision + 1) obj m) := by
  have hc : s.Create gvr obj ns
      = (.ok (),
          { entries := s.entries ++
              [{ gvr := gvr, ns := ns, name := m.Name,
                 object := Store.stamp (s.revision + 1) obj m }],
            revision := s.revision + 1 }) := by
    simp [Store.Create, Accessor, hobj, habs, Object.ne_nil_of_objectMeta obj m hobj]
  refine ⟨hc, ?_⟩
  rw [hc]
  have h0 : s.entries.find? (fun e => e.hasKey gvr ns m.Name) = none := by
    simpa [Store.find] using habs
  rw [Store.find, List.find?_append, h0]
  simp [Entry.hasKey]

/-- C8, as stated, fails: with the static error `boom` configured, `Create` on
a tracker with no watch capability returns the injected error, not the
no-watch-support error, and the object is not in the delegate store. -/
theorem create_no_watch_counterexample :
    emptyStore.find nodesResource "" "node-1" = none ∧
    ((storeTracker sampleGuess none emptyStore (fakingOptions.zero.SetError "boom")).Create
        nodesResource sampleNode "").1 = .err (.New "boom") ∧
    ((storeTracker sampleGuess none emptyStore (fakingOptions.zero.SetError "boom")).Create
        nodesResource sampleNode "").1
      ≠ .err (.New "Error sending event on a tracker with no watch support") ∧
    ((storeTracker sampleGuess none emptyStore (fakingOptions.zero.SetError "boom")).Create
        nodesResource sampleNode "").2.objects.find nodesResource "" "node-1" = none := by
  refine ⟨rfl, rfl, by decide, rfl⟩

/-- C8, amended: on a tracker over the delegate store with no static error in
effect (fault injection disabled, or enabled with an empty error message),
`Create` of an object whose key is absent returns the no-watch-support error
when the tracker has no watch capability and the stopped error when its
channel is stopped; in both cases the channel is as before, the object is in
the store, a following `Get` of the key succeeds and a second `Create` fails
with already-exists. -/
theorem create_without_live_channel (guess : Guess)
    (t : FakeObjectTracker Store watch.FakeWatcher)
    (hd : t.delegatee = objectStore guess)
    (hno : t.fakingOptions.fakingEnabled = false ∨ t.fakingOptions.errorMessage = "")
    (gvr : GroupVersionResource) (obj : Object) (ns : String) (m : ObjectMeta)
    (hobj : obj.objectMeta = some m) (habs : t.objects.find gvr ns m.Name = none) :
    (t.FakeWatcher = none →
      (t.Create gvr obj ns).1
        = .err (.New "Error sending event on a tracker with no watch support")) ∧
    (∀ fw, t.FakeWatcher = some fw → fw.IsStopped = true →
      (t.Create gvr obj ns).1 = .err (.New "Error sending event on a stopped tracker")) ∧
    ((t.FakeWatcher = none ∨ ∃ fw, t.FakeWatcher = some fw ∧ fw.IsStopped = true) →
      (t.Create gvr obj ns).2.FakeWatcher = t.FakeWatcher ∧
      (t.Create gvr obj ns).2.objects.find gvr ns m.Name
        = some (Store.stamp (t.objects.revision + 1) obj m) ∧
      ((t.Create gvr obj ns).2.Get gvr ns m.Name).1
        = .ok (Store.stamp (t.objects.revision + 1) obj m) ∧
      ((t.Create gvr obj ns).2.Create gvr obj ns).1
        = .err (.AlreadyExists gvr.Resource m.Name)) := by
  obtain ⟨fw0, del, objs, ws, sl, fo⟩ := t
  simp only at hd hno habs
  subst hd
  obtain ⟨d, hr⟩ := FakeObjectTracker.runFakes_of_no_error
    { FakeWatcher := fw0, delegatee := objectStore guess, objects := objs, watchers := ws,
      slept := sl, fakingOptions := fo } hno
  obtain ⟨hc, hfind⟩ := Store.find_Create objs gvr obj ns m hobj habs
  refine ⟨?_, ?_, ?_⟩
  · intro hw
    simp only at hw
    subst hw
    rw [FakeObjectTracker.Create, hr]
    simp [objectStore, hc]
  · intro fw hw hs
    simp only at hw
    subst hw
    rw [FakeObjectTracker.Create, hr]
    simp [objectStore, hc, hs]
  · intro hw
    have key : FakeObjectTracker.Create
          { FakeWatcher := fw0, delegatee := objectStore guess, objects := objs, watchers := ws,
            slept := sl, fakingOptions := fo } gvr obj ns
        = ((FakeObjectTracker.Create
              { FakeWatcher := fw0, delegatee := objectStore guess, objects := objs,
                watchers := ws, slept := sl, fakingOptions := fo } gvr obj ns).1,
            { FakeWatcher := fw0, delegatee := objectStore guess,
              objects := (objs.Create gvr obj ns).2, watchers := ws, slept := sl + d,
              fakingOptions := fo }) := by
      rcases hw with hw | ⟨fw, hw, hs⟩
      · simp only at hw
        subst hw
        rw [FakeObjectTracker.Create, hr]
        simp [objectStore, hc]
      · simp only at hw
        subst hw
        rw [FakeObjectTracker.Create, hr]
        simp [objectStore, hc, hs]
    rw [key]
    generalize (objs.Create gvr obj ns).2 = s1 at hfind ⊢
    obtain ⟨d1, hr1⟩ := FakeObjectTracker.runFakes_of_no_error
      { FakeWatcher := fw0, delegatee := objectStore guess,
        objects := s1, watchers := ws, slept := sl + d,
        fakingOptions := fo } hno
    refine ⟨rfl, hfind, ?_, ?_⟩
    · rw [FakeObjectTracker.Get, hr1]
      simp [objectStore, Store.Get, hfind]
    · rw [FakeObjectTracker.Create, hr1]
      simp [objectStore, Store.Create, Accessor, hobj, hfind,
        Object.ne_nil_of_objectMeta obj m hobj]

/-- C8, amended, at a concrete input, the empty store: on a tracker
with no watch capability the creation of the node returns the no-watch-support
error, and a second creation is refused with already-exists. -/
theorem create_without_live_channel_witness :
    (storeTracker sampleGuess none emptyStore fakingOptions.zero).delegatee
      = objectStore sampleGuess ∧
    (fakingOptions.zero.fakingEnabled = false ∨ fakingOptions.zero.errorMessage = "") ∧
    emptyStore.find nodesResource "" "node-1" = none ∧
    ((storeTracker sampleGuess none emptyStore fakingOptions.zero).Create
        nodesResource sampleNode "").1
      = .err (.New "Error sending event on a tracker with no watch support") ∧
    (((storeTracker sampleGuess none emptyStore fakingOptions.zero).Create
        nodesResource sampleNode "").2.Create nodesResource sampleNode "").1
      = .err (.AlreadyExists "nodes" "node-1") := by
  have h := create_without_live_channel sampleGuess
    (storeTracker sampleGuess none emptyStore fakingOptions.zero) rfl (Or.inl rfl)
    nodesResource sampleNode ""
    { Name := "node-1", Namespace := "", ResourceVersion := "", Labels := [("role", "worker")] }
    rfl rfl
  exact ⟨rfl, Or.inl rfl, rfl, h.1 rfl, (h.2.2 (Or.inl rfl)).2.2.2⟩

/-! ## Panics -/

/-- A stopped watcher handles no event. -/
theorem watcher.handles_of_stopped (guess : Guess) (w : watcher) (event : watch.Event)
    (hs : w.FakeWatcher.Stopped = true) : w.handles guess event = false := by
  simp [watcher.handles, watch.FakeWatcher.IsStopped, hs]

/-- The method `watcher.dispatch` returns normally: a stopped watcher handles
no event, so the send is on an open channel. -/
theorem watcher.dispatch_ok (guess : Guess) (w : watcher) (event : watch.Event) :
    (w.dispatch guess event).1 = .ok () := by
  unfold watcher.dispatch
  cases hh : w.handles guess event
  · simp
  · have hs : w.FakeWatcher.Stopped = false := by
      cases hst : w.FakeWatcher.Stopped
      · rfl
      · rw [watcher.handles_of_stopped guess w event hst] at hh
        cases hh
    simp [watch.FakeWatcher.Action, hs]

/-- The loop of `dispatchInitialObjects` returns normally. -/
theorem watcher.dispatchItems_ok (guess : Guess) (items : List Object) (w : watcher) :
    (w.dispatchItems guess items).1 = .ok () := by
  induction items generalizing w with
  | nil => rfl
  | cons o items ih =>
    have h := watcher.dispatch_ok guess w { Typ := .Added, Object := o }
    rcases hd : w.dispatch guess { Typ := .Added, Object := o } with ⟨r, w1⟩
    rw [hd] at h
    simp only at h
    subst h
    simp [watcher.dispatchItems, hd, ih]

/-- The loop of the constructors on a tracker with fault injection disabled:
it panics exactly when an `Add` of the delegate fails, it never returns an
error, and otherwise it leaves the delegate state `addsTo` computes. -/
theorem addObjects_spec (objects : List Object) (o : FakeObjectTracker σ ω)
    (hf : o.fakingOptions.fakingEnabled = false) :
    ((addObjects o objects).1.isPanic = true ↔ addsTo o.delegatee o.objects objects = none) ∧
    (∀ s, addsTo o.delegatee o.objects objects = some s →
      addObjects o objects = (.ok (), { o with objects := s })) := by
  induction objects generalizing o with
  | nil => simp [addObjects, addsTo, Outcome.isPanic]
  | cons obj objects ih =>
    rcases ha : o.delegatee.Add o.objects obj with ⟨r, s1⟩
    cases r with
    | err e =>
      simp [addObjects, addsTo, FakeObjectTracker.Add, FakeObjectTracker.runFakes, hf, ha,
        Outcome.isPanic]
    | panic e =>
      simp [addObjects, addsTo, FakeObjectTracker.Add, FakeObjectTracker.runFakes, hf, ha,
        Outcome.isPanic]
    | ok u =>
      have h := ih { o with objects := s1 } hf
      simp [addObjects, addsTo, FakeObjectTracker.Add, FakeObjectTracker.runFakes, hf, ha]
      exact h

/-- C9, as stated, fails: `NewMachineClientSet` panics when the delegate
refuses one of the given objects, here an object whose metadata cannot be
read, or the same node given twice (also for `NewCoreClientSet`). -/
theorem constructor_panic_counterexample :
    NewMachineClientSet (objectStore sampleGuess) emptyStore [opaqueObject]
      = .panic (.Errorf "object does not implement the Object interfaces") ∧
    (NewMachineClientSet (objectStore sampleGuess) emptyStore [opaqueObject]).isPanic
      = true ∧
    NewMachineClientSet (objectStore sampleGuess) emptyStore [sampleNode, sampleNode]
      = .panic (.AlreadyExists "nodes" "node-1") ∧
    NewCoreClientSet (objectStore sampleGuess) emptyStore [sampleNode, sampleNode]
      = .panic (.AlreadyExists "nodes" "node-1") :=
  ⟨rfl, rfl, rfl, rfl⟩

/-- C9, amended: `FakeObjectTracker.Stop` panics exactly when the tracker has
no watch channel, and a `Stop` after a `Stop` does not panic; the `Stop` of
the group panics exactly when one of its trackers is nil or has no watch
channel;
`NewMachineClientSet` and `NewCoreClientSet` panic exactly when the `Add` of
one of the given objects fails in the delegate; `Add`, `Get`, `Create`,
`Update`, `List`, `Delete` and `Watch` panic exactly when the call of the
delegate they reach panics, so the tracker adds no panic of its own to them;
the dispatch of an event to a watcher does not panic; the initial-sync
dispatch returns the error, without panic, when `List` or `GetItemsPtr`
returns one. -/
theorem panics_by_design_only (t : FakeObjectTracker σ ω) (g : FakeObjectTrackers σ ω)
    (d : k8stesting.ObjectTracker σ ω) (s0 : σ) (objects : List Object)
    (guess : Guess) (getItemsPtr : GetItemsPtr) (w : watcher) (event : watch.Event)
    (action : k8stesting.WatchAction)
    (gvr : GroupVersionResource) (gvk : GroupVersionKind) (obj : Object) (ns name : String) :
    (t.Stop.1.isPanic = true ↔ t.FakeWatcher = none) ∧
    (t.Stop.1.isPanic = false → t.Stop.2.Stop.1.isPanic = false) ∧
    (g.Stop.1.isPanic = true ↔
      (lacksWatch g.ControlMachine = true ∨ lacksWatch g.ControlCore = true ∨
        lacksWatch g.TargetCore = true)) ∧
    ((NewMachineClientSet d s0 objects).isPanic = true ↔ addsTo d s0 objects = none) ∧
    ((NewCoreClientSet d s0 objects).isPanic = true ↔ addsTo d s0 objects = none) ∧
    ((t.Add obj).1.isPanic = true ↔
      t.runFakes.1 = none ∧ (t.delegatee.Add t.objects obj).1.isPanic = true) ∧
    ((t.Get gvr ns name).1.isPanic = true ↔
      t.runFakes.1 = none ∧ (t.delegatee.Get t.objects gvr ns name).1.isPanic = true) ∧
    ((t.Create gvr obj ns).1.isPanic = true ↔
      t.runFakes.1 = none ∧ (t.delegatee.Create t.objects gvr obj ns).1.isPanic = true) ∧
    ((t.Update gvr obj ns).1.isPanic = true ↔
      t.runFakes.1 = none ∧
      (t.fakingOptions.fakingEnabled && gvr.Resource == "nodes"
        && t.fakingOptions.failAt.Node.Update != "") = false ∧
      (t.delegatee.Update t.objects gvr obj ns).1.isPanic = true) ∧
    ((t.List gvr gvk ns).1.isPanic = true ↔
      t.runFakes.1 = none ∧ (t.delegatee.List t.objects gvr gvk ns).1.isPanic = true) ∧
    ((t.Delete gvr ns name).1.isPanic = true ↔
      t.runFakes.1 = none ∧
      ((t.delegatee.Get t.objects gvr ns name).1.isPanic = true ∨
        (t.delegatee.Delete (t.delegatee.Get t.objects gvr ns name).2 gvr ns name).1.isPanic
          = true)) ∧
    ((t.Watch gvr name).1.isPanic = true ↔
      t.runFakes.1 = none ∧ (t.delegatee.Watch t.objects gvr name).1.isPanic = true) ∧
    (w.dispatch guess event).1.isPanic = false ∧
    (∀ e t1, t.List action.Resource
        { Group := action.Resource.Group, Version := action.Resource.Version,
          Kind := action.Resource.Resource } action.Namespace = (.err e, t1) →
      (w.dispatchInitialObjects getItemsPtr action t).1 = .err e) ∧
    (∀ l t1 e, t.List action.Resource
        { Group := action.Resource.Group, Version := action.Resource.Version,
          Kind := action.Resource.Resource } action.Namespace = (.ok l, t1) →
      getItemsPtr l = .error e →
      (w.dispatchInitialObjects getItemsPtr action t).1 = .err e) := by
  have hrf : t.runFakes.2.delegatee = t.delegatee ∧ t.runFakes.2.objects = t.objects ∧
      t.runFakes.2.FakeWatcher = t.FakeWatcher ∧
      t.runFakes.2.fakingOptions = t.fakingOptions := by
    unfold FakeObjectTracker.runFakes
    split <;> simp
  refine ⟨?_, ?_, ?_, ?_, ?_, ?_, ?_, ?_, ?_, ?_, ?_, ?_, ?_, ?_, ?_⟩
  · cases hw : t.FakeWatcher <;> simp [FakeObjectTracker.Stop, hw, Outcome.isPanic]
  · cases hw : t.FakeWatcher <;> simp [FakeObjectTracker.Stop, hw, Outcome.isPanic]
  · have hone : ∀ p : Option (FakeObjectTracker σ ω),
        (lacksWatch p = true → ∃ e p1, stopThrough p = (.panic e, p1)) ∧
        (lacksWatch p = false → ∃ ws p1, stopThrough p = (.ok ws, p1)) := by
      intro p
      cases p with
      | none => simp [lacksWatch, stopThrough]
      | some t0 =>
        cases hw : t0.FakeWatcher <;>
          simp [lacksWatch, stopThrough, FakeObjectTracker.Stop, hw]
    cases h1 : lacksWatch g.ControlMachine
    · obtain ⟨ws1, p1, e1⟩ := (hone g.ControlMachine).2 h1
      cases h2 : lacksWatch g.ControlCore
      · obtain ⟨ws2, p2, e2⟩ := (hone g.ControlCore).2 h2
        cases h3 : lacksWatch g.TargetCore
        · obtain ⟨ws3, p3, e3⟩ := (hone g.TargetCore).2 h3
          simp [FakeObjectTrackers.Stop, e1, e2, e3, Outcome.isPanic]
        · obtain ⟨x3, p3, e3⟩ := (hone g.TargetCore).1 h3
          simp [FakeObjectTrackers.Stop, e1, e2, e3, Outcome.isPanic]
      · obtain ⟨x2, p2, e2⟩ := (hone g.ControlCore).1 h2
        simp [FakeObjectTrackers.Stop, e1, e2, Outcome.isPanic]
    · obtain ⟨x1, p1, e1⟩ := (hone g.ControlMachine).1 h1
      simp [FakeObjectTrackers.Stop, e1, Outcome.isPanic]
  · have h := (addObjects_spec objects
      { FakeWatcher := some watch.NewFake, delegatee := d, objects := s0, watchers := [],
        slept := 0, fakingOptions := fakingOptions.zero } rfl).1
    simp only [NewMachineClientSet]
    rw [← h]
    rcases addObjects _ objects with ⟨r, o1⟩
    cases r <;> simp [Outcome.isPanic]
  · have h := (addObjects_spec objects
      { FakeWatcher := some watch.NewFake, delegatee := d, objects := s0, watchers := [],
        slept := 0, fakingOptions := fakingOptions.zero } rfl).1
    simp only [NewCoreClientSet]
    rw [← h]
    rcases addObjects _ objects with ⟨r, o1⟩
    cases r <;> simp [Outcome.isPanic]
  · rcases hr : t.runFakes with ⟨err, t1⟩
    rw [hr] at hrf
    obtain ⟨hd, ho, hw, hfo⟩ := hrf
    simp only at hd ho hw hfo
    cases err with
    | some e => simp [FakeObjectTracker.Add, hr, Outcome.isPanic]
    | none =>
      rcases ha : t.delegatee.Add t.objects obj with ⟨r, s⟩
      cases r <;> simp [FakeObjectTracker.Add, hr, hd, ho, ha, Outcome.isPanic]
  · rcases hr : t.runFakes with ⟨err, t1⟩
    rw [hr] at hrf
    obtain ⟨hd, ho, hw, hfo⟩ := hrf
    simp only at hd ho hw hfo
    cases err with
    | some e => simp [FakeObjectTracker.Get, hr, Outcome.isPanic]
    | none =>
      rcases ha : t.delegatee.Get t.objects gvr ns name with ⟨r, s⟩
      cases r <;> simp [FakeObjectTracker.Get, hr, hd, ho, ha, Outcome.isPanic]
  · rcases hr : t.runFakes with ⟨err, t1⟩
    rw [hr] at hrf
    obtain ⟨hd, ho, hw, hfo⟩ := hrf
    simp only at hd ho hw hfo
    cases err with
    | some e => simp [FakeObjectTracker.Create, hr, Outcome.isPanic]
    | none =>
      rcases ha : t.delegatee.Create t.objects gvr obj ns with ⟨r, s⟩
      rcases hfw : t.FakeWatcher with _ | ⟨res, st⟩ <;> cases r <;> (try cases st) <;>
        simp [FakeObjectTracker.Create, hr, hd, ho, hw, hfo, ha, hfw, Outcome.isPanic,
          watch.FakeWatcher.IsStopped, watch.FakeWatcher.Add, watch.FakeWatcher.Action]
  · rcases hr : t.runFakes with ⟨err, t1⟩
    rw [hr] at hrf
    obtain ⟨hd, ho, hw, hfo⟩ := hrf
    simp only at hd ho hw hfo
    cases err with
    | some e => simp [FakeObjectTracker.Update, hr, Outcome.isPanic]
    | none =>
      rcases ha : t.delegatee.Update t.objects gvr obj ns with ⟨r, s⟩
      by_cases hc : (t.fakingOptions.fakingEnabled = true ∧ gvr.Resource = "nodes") ∧
          ¬ t.fakingOptions.failAt.Node.Update = ""
      all_goals
        rcases hfw : t.FakeWatcher with _ | ⟨res, st⟩ <;> cases r <;> (try cases st) <;>
          simp [FakeObjectTracker.Update, hr, hd, ho, hw, hfo, ha, hfw, Outcome.isPanic,
            watch.FakeWatcher.IsStopped, watch.FakeWatcher.Modify, watch.FakeWatcher.Action,
            hc]
      all_goals
        intro h1 h2
        by_contra h3
        exact hc ⟨⟨h1, h2⟩, h3⟩
  · rcases hr : t.runFakes with ⟨err, t1⟩
    rw [hr] at hrf
    obtain ⟨hd, ho, hw, hfo⟩ := hrf
    simp only at hd ho hw hfo
    cases err with
    | some e => simp [FakeObjectTracker.List, hr, Outcome.isPanic]
    | none =>
      rcases ha : t.delegatee.List t.objects gvr gvk ns with ⟨r, s⟩
      cases r <;> simp [FakeObjectTracker.List, hr, hd, ho, ha, Outcome.isPanic]
  · rcases hr : t.runFakes with ⟨err, t1⟩
    rw [hr] at hrf
    obtain ⟨hd, ho, hw, hfo⟩ := hrf
    simp only at hd ho hw hfo
    cases err with
    | some e => simp [FakeObjectTracker.Delete, hr, Outcome.isPanic]
    | none =>
      rcases hg : t.delegatee.Get t.objects gvr ns name with ⟨got, s1⟩
      rcases ha : t.delegatee.Delete s1 gvr ns name with ⟨r, s⟩
      rcases hfw : t.FakeWatcher with _ | ⟨res, st⟩ <;> cases r <;> cases got <;>
        (try cases st) <;>
        simp [FakeObjectTracker.Delete, hr, hd, ho, hw, hfo, hg, ha, hfw, Outcome.isPanic,
          watch.FakeWatcher.IsStopped, watch.FakeWatcher.Delete, watch.FakeWatcher.Action]
  · rcases hr : t.runFakes with ⟨err, t1⟩
    rw [hr] at hrf
    obtain ⟨hd, ho, hw, hfo⟩ := hrf
    simp only at hd ho hw hfo
    cases err with
    | some e => simp [FakeObjectTracker.Watch, hr, Outcome.isPanic]
    | none =>
      rcases ha : t.delegatee.Watch t.objects gvr name with ⟨r, s⟩
      cases r <;> simp [FakeObjectTracker.Watch, hr, hd, ho, ha, Outcome.isPanic]
  · rw [watcher.dispatch_ok]
    rfl
  · intro e t1 h
    simp [watcher.dispatchInitialObjects, h]
  · intro l t1 e h hg
    simp [watcher.dispatchInitialObjects, h, hg]

/-- C9, amended, at concrete inputs: `Stop` on a tracker without watch support
panics, a `Stop` after the `Stop` of a tracker with watch support does not,
the `Stop` of a group with a tracker without watch support panics, `Create`
of a nil object panics where the store does, and the initial-sync
dispatch on a tracker with the static error `boom` returns that error. -/
theorem panics_by_design_only_witness :
    (storeTracker sampleGuess none nodeStore fakingOptions.zero).Stop.1.isPanic = true ∧
    (storeTracker sampleGuess (some watch.NewFake) nodeStore fakingOptions.zero
      ).Stop.2.Stop.1.isPanic = false ∧
    (NewFakeObjectTrackers
      (some (storeTracker sampleGuess (some watch.NewFake) nodeStore fakingOptions.zero))
      (some (storeTracker sampleGuess none nodeStore fakingOptions.zero))
      none).Stop.1.isPanic = true ∧
    ((storeTracker sampleGuess (some watch.NewFake) nodeStore fakingOptions.zero).Create
      nodesResource .nil "").1.isPanic = true ∧
    (nodeWatcher.dispatchInitialObjects itemsPtrOf watchNodes
      (storeTracker sampleGuess (some watch.NewFake) nodeStore
        (fakingOptions.zero.SetError "boom"))).1 = .err (.New "boom") := by
  have h0 := panics_by_design_only
    (storeTracker sampleGuess none nodeStore fakingOptions.zero)
    (NewFakeObjectTrackers
      (some (storeTracker sampleGuess (some watch.NewFake) nodeStore fakingOptions.zero))
      (some (storeTracker sampleGuess none nodeStore fakingOptions.zero))
      none)
    (objectStore sampleGuess) emptyStore [sampleNode] sampleGuess itemsPtrOf nodeWatcher
    { Typ := .Added, Object := sampleNode } watchNodes nodesResource
    { Group := "", Version := "v1", Kind := "Node" } .nil "" "node-1"
  have h1 := panics_by_design_only
    (storeTracker sampleGuess (some watch.NewFake) nodeStore fakingOptions.zero)
    (NewFakeObjectTrackers
      (some (storeTracker sampleGuess (some watch.NewFake) nodeStore fakingOptions.zero))
      (some (storeTracker sampleGuess none nodeStore fakingOptions.zero))
      none)
    (objectStore sampleGuess) emptyStore [sampleNode] sampleGuess itemsPtrOf nodeWatcher
    { Typ := .Added, Object := sampleNode } watchNodes nodesResource
    { Group := "", Version := "v1", Kind := "Node" } .nil "" "node-1"
  have h2 := panics_by_design_only
    (storeTracker sampleGuess (some watch.NewFake) nodeStore
      (fakingOptions.zero.SetError "boom"))
    (NewFakeObjectTrackers
      (some (storeTracker sampleGuess (some watch.NewFake) nodeStore fakingOptions.zero))
      (some (storeTracker sampleGuess none nodeStore fakingOptions.zero))
      none)
    (objectStore sampleGuess) emptyStore [sampleNode] sampleGuess itemsPtrOf nodeWatcher
    { Typ := .Added, Object := sampleNode } watchNodes nodesResource
    { Group := "", Version := "v1", Kind := "Node" } .nil "" "node-1"
  exact ⟨h0.1.2 rfl, h1.2.1 rfl, h0.2.2.1.2 (Or.inr (Or.inl rfl)),
    h1.2.2.2.2.2.2.2.1.2 ⟨rfl, rfl⟩,
    h2.2.2.2.2.2.2.2.2.2.2.2.2.2.1 (.New "boom") _ rfl⟩

/-! ## Delivery to the watchers -/

/-- The opening block of an operation changes nothing but the time slept. -/
theorem FakeObjectTracker.runFakes_keeps (t : FakeObjectTracker σ ω) :
    t.runFakes.2.delegatee = t.delegatee ∧ t.runFakes.2.objects = t.objects ∧
    t.runFakes.2.FakeWatcher = t.FakeWatcher ∧ t.runFakes.2.watchers = t.watchers ∧
    t.runFakes.2.fakingOptions = t.fakingOptions := by
  unfold FakeObjectTracker.runFakes
  split <;> simp

/-- A mutating call that returns without error has put exactly one event, of
its type, on the channel of the tracker, and has left the watchers alone. -/
theorem Mutation.run_ok (m : Mutation) (t : FakeObjectTracker σ ω)
    (h : (m.run t).1 = .ok ()) :
    ∃ fw e, t.FakeWatcher = some fw ∧
      (m.run t).2.FakeWatcher = some { fw with result := fw.result ++ [e] } ∧
      e.Typ = m.eventType ∧ (m.run t).2.watchers = t.watchers := by
  have hk := t.runFakes_keeps
  rcases hr : t.runFakes with ⟨err, t1⟩
  rw [hr] at hk
  obtain ⟨hd, ho, hw, hws, hfo⟩ := hk
  simp only at hd ho hw hws hfo
  cases m with
  | Create gvr obj ns =>
    cases err with
    | some e => simp [Mutation.run, FakeObjectTracker.Create, hr] at h
    | none =>
      rcases ha : t.delegatee.Create t.objects gvr obj ns with ⟨r, s⟩
      rcases hfw : t.FakeWatcher with _ | ⟨res, st⟩ <;> cases r <;> (try cases st) <;>
        simp [Mutation.run, Mutation.eventType, FakeObjectTracker.Create, hr, hd, ho, hw, hws,
          ha, hfw, watch.FakeWatcher.IsStopped, watch.FakeWatcher.Add,
          watch.FakeWatcher.Action] at h ⊢
  | Update gvr obj ns =>
    cases err with
    | some e => simp [Mutation.run, FakeObjectTracker.Update, hr] at h
    | none =>
      rcases ha : t.delegatee.Update t.objects gvr obj ns with ⟨r, s⟩
      by_cases hc : (t.fakingOptions.fakingEnabled = true ∧ gvr.Resource = "nodes") ∧
          ¬ t.fakingOptions.failAt.Node.Update = ""
      all_goals
        rcases hfw : t.FakeWatcher with _ | ⟨res, st⟩ <;> cases r <;> (try cases st) <;>
          simp [Mutation.run, Mutation.eventType, FakeObjectTracker.Update, hr, hd, ho, hw,
            hws, hfo, ha, hfw, watch.FakeWatcher.IsStopped, watch.FakeWatcher.Modify,
            watch.FakeWatcher.Action, hc] at h ⊢
  | Delete gvr ns name =>
    cases err with
    | some e => simp [Mutation.run, FakeObjectTracker.Delete, hr] at h
    | none =>
      rcases hg : t.delegatee.Get t.objects gvr ns name with ⟨got, s1⟩
      rcases ha : t.delegatee.Delete s1 gvr ns name with ⟨r, s⟩
      rcases hfw : t.FakeWatcher with _ | ⟨res, st⟩ <;> cases r <;> cases got <;>
        (try cases st) <;>
        simp [Mutation.run, Mutation.eventType, FakeObjectTracker.Delete, hr, hd, ho, hw, hws,
          hg, ha, hfw, watch.FakeWatcher.IsStopped, watch.FakeWatcher.Delete,
          watch.FakeWatcher.Action] at h ⊢

/-- Mutating calls that each return without error put one event per call on
the channel of the tracker, in the order of the calls. -/
theorem runMutations_events (ops : List Mutation) (t t1 : FakeObjectTracker σ ω)
    (fw : watch.FakeWatcher) (hrun : runMutations t ops = some t1)
    (hfw : t.FakeWatcher = some fw) :
    ∃ events, t1.FakeWatcher = some { fw with result := fw.result ++ events } ∧
      events.map (fun e => e.Typ) = ops.map Mutation.eventType ∧
      t1.watchers = t.watchers := by
  induction ops generalizing t fw with
  | nil =>
    simp only [runMutations, Option.some.injEq] at hrun
    subst hrun
    exact ⟨[], by simp [hfw], rfl, rfl⟩
  | cons m ms ih =>
    rcases hm : m.run t with ⟨r, t2⟩
    cases r with
    | err e => simp [runMutations, hm] at hrun
    | panic e => simp [runMutations, hm] at hrun
    | ok u =>
      simp only [runMutations, hm] at hrun
      have hok : (m.run t).1 = .ok () := by rw [hm]
      obtain ⟨fw0, e, h1, h2, h3, h4⟩ := Mutation.run_ok m t hok
      rw [hm] at h2 h4
      simp only at h2 h4
      rw [hfw] at h1
      cases h1
      obtain ⟨events, g1, g2, g3⟩ := ih t2 _ hrun h2
      refine ⟨e :: events, ?_, ?_, ?_⟩
      · rw [g1]
        simp
      · simp [h3, g2]
      · rw [g3, h4]

/-- Whether a watcher handles an event depends on its stop flag and its
action only. -/
theorem watcher.handles_congr (guess : Guess) (w1 w2 : watcher) (event : watch.Event)
    (hs : w1.FakeWatcher.Stopped = w2.FakeWatcher.Stopped) (ha : w1.action = w2.action) :
    w1.handles guess event = w2.handles guess event := by
  simp [watcher.handles, watch.FakeWatcher.IsStopped, hs, ha]

/-- The method `watcher.dispatch` appends the event to the channel of the
watcher when the watcher handles it, and does nothing else. -/
theorem watcher.dispatch_eq (guess : Guess) (w : watcher) (event : watch.Event) :
    (w.dispatch guess event).2
      = { w with
          FakeWatcher :=
            { w.FakeWatcher with
              result :=
                w.FakeWatcher.result ++ [event].filter (fun e => w.handles guess e) } } := by
  unfold watcher.dispatch
  cases hh : w.handles guess event
  · simp [hh]
  · have hs : w.FakeWatcher.Stopped = false := by
      cases hst : w.FakeWatcher.Stopped
      · rfl
      · rw [watcher.handles_of_stopped guess w event hst] at hh
        cases hh
    simp [watch.FakeWatcher.Action, hs, hh]

/-- The events offered to one watcher, one after the other: the watcher
receives those it handles, in the order in which they were offered. -/
theorem watcher.dispatch_foldl (guess : Guess) (events : List watch.Event) (w : watcher) :
    events.foldl (fun w1 e => (w1.dispatch guess e).2) w
      = { w with
          FakeWatcher :=
            { w.FakeWatcher with
              result :=
                w.FakeWatcher.result ++ events.filter (fun e => w.handles guess e) } } := by
  induction events generalizing w with
  | nil => simp
  | cons e events ih =>
    rw [List.foldl_cons, ih, watcher.dispatch_eq]
    have hc : ∀ e1, watcher.handles guess
        { w with
          FakeWatcher :=
            { w.FakeWatcher with
              result := w.FakeWatcher.result ++ [e].filter (fun e => w.handles guess e) } } e1
        = w.handles guess e1 := fun e1 => watcher.handles_congr guess _ w e1 rfl rfl
    simp only [hc]
    cases hh : w.handles guess e <;> simp [List.filter_cons, hh]

/-- The loop of `Start` over a tracker: every watcher is offered every event
in turn. -/
theorem tracker_dispatch_foldl (guess : Guess) (events : List watch.Event)
    (t : FakeObjectTracker σ ω) :
    events.foldl (fun t1 e => t1.dispatch guess e) t
      = { t with
          watchers :=
            t.watchers.map (fun w => events.foldl (fun w1 e => (w1.dispatch guess e).2) w) } := by
  induction events generalizing t with
  | nil => simp
  | cons e events ih =>
    rw [List.foldl_cons, ih]
    simp [FakeObjectTracker.dispatch, List.map_map, Function.comp_def]

/-- A watcher that is not stopped and has no restrictions handles exactly the
events about the resource it watches. -/
theorem watcher.handles_unrestricted (guess : Guess) (w : watcher) (event : watch.Event)
    (hs : w.FakeWatcher.Stopped = false)
    (hrv : w.action.WatchRestrictions.ResourceVersion = "")
    (hf : w.action.WatchRestrictions.Fields = none)
    (hl : w.action.WatchRestrictions.Labels = none) :
    w.handles guess event = w.watches guess event := by
  unfold watcher.handles watcher.watches TypeAccessor Accessor
  cases ht : event.Object.typeMeta <;> cases ho : event.Object.objectMeta <;>
    simp [watch.FakeWatcher.IsStopped, hs, hrv, hf, hl]

/-- C10, as stated, fails: on a live tracker with an unrestricted watcher of
`nodes` registered, the `Create` of a node whose API version and kind are
empty succeeds and puts `Added` on the channel of the tracker, but the watcher
does not handle the event, so the dispatch delivers nothing to it.  Whether
the watcher handles an event does not depend on the schedule. -/
theorem untyped_object_counterexample :
    watchedTracker.watchers = [nodeWatcher] ∧
    nodeWatcher.FakeWatcher.Stopped = false ∧
    nodeWatcher.action.Resource = nodesResource ∧
    nodeWatcher.action.WatchRestrictions.ResourceVersion = "" ∧
    nodeWatcher.action.WatchRestrictions.Fields.isNone = true ∧
    nodeWatcher.action.WatchRestrictions.Labels.isNone = true ∧
    (watchedTracker.Create nodesResource untypedNode "").1 = .ok () ∧
    (watchedTracker.Create nodesResource untypedNode "").2.FakeWatcher
      = some { result := [{ Typ := .Added, Object := untypedNode }], Stopped := false } ∧
    nodeWatcher.handles sampleGuess { Typ := .Added, Object := untypedNode } = false ∧
    (((watchedTracker.Create nodesResource untypedNode "").2.Start sampleGuess
        [{ Typ := .Added, Object := untypedNode }]).2.watchers.map
          (fun w => w.FakeWatcher.result)) = [[]] := by
  refine ⟨rfl, rfl, rfl, rfl, rfl, rfl, rfl, rfl, rfl, rfl⟩

/-- C10, amended: mutating calls that each succeed on a tracker put one event
per call on the channel of the tracker, in the order of the calls (`Added`,
`Modified`, `Deleted`).  When the events are dispatched in that order, each
to the end before the next, `Start` returns no error and every registered
watcher has received, after what it had, exactly the events it handles, once
each and in the order of the calls.  For a watcher that is not stopped and
has no restrictions these are the events about the resource it watches, and
they are all the events when every event is about that resource. -/
theorem in_order_delivery (guess : Guess) (t t1 : FakeObjectTracker σ ω)
    (ops : List Mutation) (fw : watch.FakeWatcher) (hfw : t.FakeWatcher = some fw)
    (hrun : runMutations t ops = some t1) :
    ∃ events,
      t1.FakeWatcher = some { fw with result := fw.result ++ events } ∧
      events.map (fun e => e.Typ) = ops.map Mutation.eventType ∧
      (t1.Start guess events).1 = none ∧
      (t1.Start guess events).2.watchers
        = t.watchers.map (fun w =>
            { w with
              FakeWatcher :=
                { w.FakeWatcher with
                  result :=
                    w.FakeWatcher.result ++ events.filter (fun e => w.handles guess e) } }) ∧
      (∀ w ∈ t.watchers, w.FakeWatcher.Stopped = false →
        w.action.WatchRestrictions.ResourceVersion = "" →
        w.action.WatchRestrictions.Fields = none →
        w.action.WatchRestrictions.Labels = none →
        events.filter (fun e => w.handles guess e)
          = events.filter (fun e => w.watches guess e) ∧
        ((∀ e ∈ events, w.watches guess e = true) →
          events.filter (fun e => w.handles guess e) = events)) := by
  obtain ⟨events, h1, h2, h3⟩ := runMutations_events ops t t1 fw hrun hfw
  refine ⟨events, h1, h2, ?_, ?_, ?_⟩
  · simp [FakeObjectTracker.Start, h1]
  · simp only [FakeObjectTracker.Start, h1, tracker_dispatch_foldl, h3]
    apply List.map_congr_left
    intro w _
    exact watcher.dispatch_foldl guess events w
  · intro w _ hs hrv hf hl
    have hfun : (fun e => w.handles guess e) = (fun e => w.watches guess e) := by
      funext e
      exact watcher.handles_unrestricted guess w e hs hrv hf hl
    refine ⟨by rw [hfun], ?_⟩
    intro hall
    rw [hfun]
    exact List.filter_eq_self.2 hall

/-- C10, amended, at a concrete input: the creation, update and deletion of a
node on a live tracker with an unrestricted watcher of `nodes`; the calls
succeed, their events are `Added`, `Modified`, `Deleted`, and the watcher has
received those of them that it handles. -/
theorem in_order_delivery_witness :
    watchedTracker.FakeWatcher = some watch.NewFake ∧
    ∃ t1, runMutations watchedTracker nodeLifecycle = some t1 ∧
      ∃ events,
        events.map (fun e => e.Typ) = [.Added, .Modified, .Deleted] ∧
        (t1.Start sampleGuess events).2.watchers
          = [{ nodeWatcher with
               FakeWatcher :=
                 { nodeWatcher.FakeWatcher with
                   result :=
                     nodeWatcher.FakeWatcher.result ++
                       events.filter (fun e => nodeWatcher.handles sampleGuess e) } }] := by
  have h := in_order_delivery sampleGuess watchedTracker _ nodeLifecycle watch.NewFake rfl rfl
  obtain ⟨events, _, h2, _, h4, _⟩ := h
  exact ⟨rfl, _, rfl, events, h2, h4⟩

end fakeclient
